import Mathlib

/-!
Verification development for the USBPETKeyboard repository (Teensy++2.0
keyboard-matrix drivers: USBPETKeyboard.ino, USBPETKeyboardForVICE.ino and
the CBM 64 driver).  The C++ sources are shallowly embedded: machine
integers are Nat/Int with explicit wrap-around where overflow matters, the
global mutable state of each driver becomes an explicit `State` structure,
and code paths that are undefined in C (falling off the end of a non-void
function, out-of-range table reads) return `none`.
-/

set_option maxRecDepth 10000

/-- Wrap an integer into the int8_t range [-128, 127] (two's complement). -/
def wrap8 (x : Int) : Int := (x + 128) % 256 - 128

/-- Store a C uint8_t value into an int8_t variable (implementation-defined
conversion, modelled as two's-complement truncation as on AVR). -/
def toInt8 (n : Nat) : Int := wrap8 (n : Int)

/-- Bit-level `m & ~mask` on a 16-bit quantity, as the AVR `int` operations on
the `modifiers` variable behave at bit level. -/
def andNot16 (m mask : Nat) : Nat := m &&& (65535 ^^^ mask)

/-- 32-bit unsigned subtraction `a - b`, as in `currentMillis - previousMillis`
on `unsigned long`. -/
def sub32 (a b : Nat) : Nat := (a % 4294967296 + 4294967296 - b % 4294967296) % 4294967296

/-- Index of the first element satisfying `p`, or `none`. -/
def firstIdx {α : Type} (p : α → Bool) : List α → Option Nat
  | [] => none
  | a :: rest => if p a then some 0 else (firstIdx p rest).map (· + 1)

/-- Number of occupied slots of a `usbKeys` array: slots whose value is not -1. -/
def countOcc (l : List Int) : Nat := l.countP (fun v => v != -1)

/-!
Teensy USB keyboard library constants (`keylayouts.h`, external to the
repository).  Modifier masks are the HID modifier bits tagged with 0xE000 and
key codes are HID usage ids tagged with 0xF000, exactly as in the library
header; the drivers only combine them with `|`, `& ~` and `^` and install them
in report slots, so the values below reproduce the library's bit patterns.
-/

def MODIFIERKEY_CTRL : Nat := 0x01 ||| 0xE000
def MODIFIERKEY_SHIFT : Nat := 0x02 ||| 0xE000
def MODIFIERKEY_ALT : Nat := 0x04 ||| 0xE000
def MODIFIERKEY_GUI : Nat := 0x08 ||| 0xE000
def MODIFIERKEY_LEFT_CTRL : Nat := 0x01 ||| 0xE000
def MODIFIERKEY_LEFT_SHIFT : Nat := 0x02 ||| 0xE000
def MODIFIERKEY_LEFT_ALT : Nat := 0x04 ||| 0xE000
def MODIFIERKEY_RIGHT_CTRL : Nat := 0x10 ||| 0xE000
def MODIFIERKEY_RIGHT_SHIFT : Nat := 0x20 ||| 0xE000
def MODIFIERKEY_RIGHT_ALT : Nat := 0x40 ||| 0xE000

def KEY_A : Nat := 4 ||| 0xF000
def KEY_B : Nat := 5 ||| 0xF000
def KEY_C : Nat := 6 ||| 0xF000
def KEY_D : Nat := 7 ||| 0xF000
def KEY_E : Nat := 8 ||| 0xF000
def KEY_F : Nat := 9 ||| 0xF000
def KEY_G : Nat := 10 ||| 0xF000
def KEY_H : Nat := 11 ||| 0xF000
def KEY_I : Nat := 12 ||| 0xF000
def KEY_J : Nat := 13 ||| 0xF000
def KEY_K : Nat := 14 ||| 0xF000
def KEY_L : Nat := 15 ||| 0xF000
def KEY_M : Nat := 16 ||| 0xF000
def KEY_N : Nat := 17 ||| 0xF000
def KEY_O : Nat := 18 ||| 0xF000
def KEY_P : Nat := 19 ||| 0xF000
def KEY_Q : Nat := 20 ||| 0xF000
def KEY_R : Nat := 21 ||| 0xF000
def KEY_S : Nat := 22 ||| 0xF000
def KEY_T : Nat := 23 ||| 0xF000
def KEY_U : Nat := 24 ||| 0xF000
def KEY_V : Nat := 25 ||| 0xF000
def KEY_W : Nat := 26 ||| 0xF000
def KEY_X : Nat := 27 ||| 0xF000
def KEY_Y : Nat := 28 ||| 0xF000
def KEY_Z : Nat := 29 ||| 0xF000
def KEY_1 : Nat := 30 ||| 0xF000
def KEY_2 : Nat := 31 ||| 0xF000
def KEY_3 : Nat := 32 ||| 0xF000
def KEY_4 : Nat := 33 ||| 0xF000
def KEY_5 : Nat := 34 ||| 0xF000
def KEY_6 : Nat := 35 ||| 0xF000
def KEY_7 : Nat := 36 ||| 0xF000
def KEY_8 : Nat := 37 ||| 0xF000
def KEY_9 : Nat := 38 ||| 0xF000
def KEY_0 : Nat := 39 ||| 0xF000
def KEY_ENTER : Nat := 40 ||| 0xF000
def KEY_ESC : Nat := 41 ||| 0xF000
def KEY_BACKSPACE : Nat := 42 ||| 0xF000
def KEY_TAB : Nat := 43 ||| 0xF000
def KEY_SPACE : Nat := 44 ||| 0xF000
def KEY_MINUS : Nat := 45 ||| 0xF000
def KEY_EQUAL : Nat := 46 ||| 0xF000
def KEY_LEFT_BRACE : Nat := 47 ||| 0xF000
def KEY_RIGHT_BRACE : Nat := 48 ||| 0xF000
def KEY_BACKSLASH : Nat := 49 ||| 0xF000
def KEY_SEMICOLON : Nat := 51 ||| 0xF000
def KEY_QUOTE : Nat := 52 ||| 0xF000
def KEY_TILDE : Nat := 53 ||| 0xF000
def KEY_COMMA : Nat := 54 ||| 0xF000
def KEY_PERIOD : Nat := 55 ||| 0xF000
def KEY_SLASH : Nat := 56 ||| 0xF000
def KEY_CAPS_LOCK : Nat := 57 ||| 0xF000
def KEY_F1 : Nat := 58 ||| 0xF000
def KEY_F2 : Nat := 59 ||| 0xF000
def KEY_F3 : Nat := 60 ||| 0xF000
def KEY_F4 : Nat := 61 ||| 0xF000
def KEY_F5 : Nat := 62 ||| 0xF000
def KEY_F6 : Nat := 63 ||| 0xF000
def KEY_F7 : Nat := 64 ||| 0xF000
def KEY_F8 : Nat := 65 ||| 0xF000
def KEY_F9 : Nat := 66 ||| 0xF000
def KEY_F10 : Nat := 67 ||| 0xF000
def KEY_F11 : Nat := 68 ||| 0xF000
def KEY_F12 : Nat := 69 ||| 0xF000
def KEY_INSERT : Nat := 73 ||| 0xF000
def KEY_HOME : Nat := 74 ||| 0xF000
def KEY_PAGE_UP : Nat := 75 ||| 0xF000
def KEY_DELETE : Nat := 76 ||| 0xF000
def KEY_END : Nat := 77 ||| 0xF000
def KEY_PAGE_DOWN : Nat := 78 ||| 0xF000
def KEY_RIGHT : Nat := 79 ||| 0xF000
def KEY_LEFT : Nat := 80 ||| 0xF000
def KEY_DOWN : Nat := 81 ||| 0xF000
def KEY_UP : Nat := 82 ||| 0xF000
def KEYPAD_SLASH : Nat := 84 ||| 0xF000
def KEYPAD_ASTERIX : Nat := 85 ||| 0xF000
def KEYPAD_MINUS : Nat := 86 ||| 0xF000
def KEYPAD_PLUS : Nat := 87 ||| 0xF000
def KEYPAD_1 : Nat := 89 ||| 0xF000
def KEYPAD_2 : Nat := 90 ||| 0xF000
def KEYPAD_3 : Nat := 91 ||| 0xF000
def KEYPAD_4 : Nat := 92 ||| 0xF000
def KEYPAD_5 : Nat := 93 ||| 0xF000
def KEYPAD_6 : Nat := 94 ||| 0xF000
def KEYPAD_7 : Nat := 95 ||| 0xF000
def KEYPAD_8 : Nat := 96 ||| 0xF000
def KEYPAD_9 : Nat := 97 ||| 0xF000
def KEYPAD_0 : Nat := 98 ||| 0xF000
def KEYPAD_PERIOD : Nat := 99 ||| 0xF000

/-- One USB HID boot report as passed to `Keyboard.send_now`: the modifier
word set by `Keyboard.set_modifier` and the six key slots. -/
structure Report where
  mods : Nat
  keys : List Nat
deriving DecidableEq, Repr

/-- A `tone(pin-fixed, freq, duration)` event of the VICE variant. -/
structure Tone where
  freq : Nat
  dur : Nat
deriving DecidableEq, Repr

namespace Pet

/-- Debounce delay (loop cycles), `const uint8_t DEBOUNCE_DELAY = 2`. -/
def DEBOUNCE_DELAY : Int := 2

/-- `KEY_CODES` table of USBPETKeyboard.ino (keyId-indexed, 10×8). -/
def KEY_CODES : List Nat :=
  [ KEY_1, KEY_3, KEY_5, KEY_7, KEY_9, KEY_MINUS, KEY_0, KEY_0,
    KEY_QUOTE, KEY_4, KEY_QUOTE, KEY_BACKSLASH, KEY_0, KEY_0, KEY_0, KEY_BACKSPACE,
    KEY_Q, KEY_E, KEY_T, KEY_U, KEY_O, KEY_TAB, KEYPAD_7, KEYPAD_9,
    KEY_W, KEY_R, KEY_Y, KEY_I, KEY_P, KEY_0, KEYPAD_8, KEYPAD_SLASH,
    KEY_A, KEY_D, KEY_G, KEY_J, KEY_L, KEY_0, KEYPAD_4, KEYPAD_6,
    KEY_S, KEY_F, KEY_H, KEY_K, KEY_SEMICOLON, KEY_0, KEYPAD_5, KEYPAD_ASTERIX,
    KEY_Z, KEY_C, KEY_B, KEY_M, KEY_SEMICOLON, KEY_ENTER, KEYPAD_1, KEYPAD_3,
    KEY_X, KEY_V, KEY_N, KEY_COMMA, KEY_SLASH, KEY_0, KEYPAD_2, KEYPAD_PLUS,
    KEY_0, KEY_2, KEY_RIGHT_BRACE, KEY_0, KEY_PERIOD, KEY_0, KEYPAD_0, KEYPAD_MINUS,
    KEY_0, KEY_LEFT_BRACE, KEY_SPACE, KEY_COMMA, KEY_ESC, KEY_0, KEYPAD_PERIOD, KEY_EQUAL ]

/-- `KEY_CODES_SHIFT_NEEDED` table of USBPETKeyboard.ino (bool array). -/
def KEY_CODES_SHIFT_NEEDED : List Bool :=
  [ true, true, true, true, true, false, false, false,
    true, true, false, false, true, false, false, false,
    false, false, false, false, false, false, false, false,
    false, false, false, false, false, false, false, false,
    false, false, false, false, false, false, false, false,
    false, false, false, false, true, false, false, false,
    false, false, false, false, false, false, false, false,
    false, false, false, false, true, false, false, false,
    false, true, false, false, true, false, false, false,
    false, false, false, true, false, false, false, false ]

/-- The global mutable state of USBPETKeyboard.ino: the `debounceKeys` table
(each row is `{keyId, countdown}` as two int8_t cells), the `usbKeys` slots
(int8_t), `keysUsed` (uint8_t), the modifier latches, the `modifiers` word,
`keyStateChange`, and the Teensy keyboard buffer written through
`Keyboard.set_modifier` / `Keyboard.set_keyN`. -/
structure State where
  debounceKeys : List (Int × Int)
  usbKeys : List Int
  keysUsed : Nat
  lShift : Bool
  rShift : Bool
  ctrl : Bool
  lArrow : Bool
  rArrow : Bool
  modifiers : Nat
  keyStateChange : Bool
  kbMods : Nat
  kbKeys : List Nat
deriving DecidableEq, Repr

/-- Initial state of the driver's globals. -/
def initState : State where
  debounceKeys := List.replicate 6 ((0 : Int), (0 : Int))
  usbKeys := List.replicate 6 (-1 : Int)
  keysUsed := 0
  lShift := false
  rShift := false
  ctrl := false
  lArrow := false
  rArrow := false
  modifiers := 0
  keyStateChange := false
  kbMods := 0
  kbKeys := List.replicate 6 0

/-- First `for` loop over `debounceKeys` in `debounce`: look for a row whose
keyId cell equals the argument; on a match take the `!= 1` / `== 1` / `== 0`
branch chain of the source (the last branch is kept even though it is
unreachable).  `none` means the loop fell through without returning. -/
def debounceLoop1 (keyId : Nat) : List (Int × Int) → Option (Bool × List (Int × Int))
  | [] => none
  | e :: rest =>
    if e.1 == (keyId : Int) then
      if e.2 != 1 then some (true, (e.1, wrap8 (e.2 - 1)) :: rest)
      else if e.2 == 1 then some (false, (e.1, 0) :: rest)
      else if e.2 == 0 then some (true, (e.1, DEBOUNCE_DELAY) :: rest)
      else (debounceLoop1 keyId rest).map (fun p => (p.1, e :: p.2))
    else (debounceLoop1 keyId rest).map (fun p => (p.1, e :: p.2))

/-- Second `for` loop of `debounce`: claim the first row whose countdown is 0
for the new keyId.  `none` means the loop fell through. -/
def debounceLoop2 (keyId : Nat) : List (Int × Int) → Option (List (Int × Int))
  | [] => none
  | e :: rest =>
    if e.2 == 0 then some ((toInt8 keyId, DEBOUNCE_DELAY) :: rest)
    else (debounceLoop2 keyId rest).map (fun l => e :: l)

/-- `bool debounce(uint8_t keyId)` of USBPETKeyboard.ino.  Returns the
suppress flag and the updated table; `none` models reaching the closing brace
of the non-void function without a `return` (undefined behavior in C). -/
def debounce (keyId : Nat) (tbl : List (Int × Int)) : Option (Bool × List (Int × Int)) :=
  match debounceLoop1 keyId tbl with
  | some r => some r
  | none => (debounceLoop2 keyId tbl).map (fun l => (true, l))

/-- Scan of the `usbKeys` array for a slot equal to `-1`; on success return
the slot index and the array with the keyId stored there. -/
def allocScan (x : Int) : List Int → Option (Nat × List Int)
  | [] => none
  | v :: rest =>
    if v == -1 then some (0, x :: rest)
    else (allocScan x rest).map (fun p => (p.1 + 1, v :: p.2))

/-- Scan of the `usbKeys` array for a slot equal to the keyId; on success
return the slot index and the array with that slot cleared to `-1`. -/
def releaseScan (k : Int) : List Int → Option (Nat × List Int)
  | [] => none
  | v :: rest =>
    if v == k then some (0, -1 :: rest)
    else (releaseScan k rest).map (fun p => (p.1 + 1, v :: p.2))

/-- `bool setKey(uint8_t keyId, uint16_t keyCode)` of USBPETKeyboard.ino. -/
def setKey (keyId keyCode : Nat) (s : State) : Option (Bool × State) :=
  if s.keysUsed == 6 then some (false, s)
  else
    match debounce keyId s.debounceKeys with
    | none => none
    | some (true, tbl) => some (false, { s with debounceKeys := tbl })
    | some (false, tbl) =>
      if s.usbKeys.any (fun v => v == (keyId : Int)) then
        some (true, { s with debounceKeys := tbl })
      else
        match allocScan (toInt8 keyId) s.usbKeys with
        | none => some (false, { s with debounceKeys := tbl })
        | some (keyNum, slots) =>
          match KEY_CODES.get? keyId, KEY_CODES_SHIFT_NEEDED.get? keyId with
          | some code, some sn =>
            some (true,
              { s with
                debounceKeys := tbl
                usbKeys := slots
                keysUsed := (s.keysUsed + 1) % 256
                modifiers := if sn then s.modifiers ||| MODIFIERKEY_SHIFT else s.modifiers
                keyStateChange := true
                kbKeys := s.kbKeys.set keyNum (if keyCode != 0 then keyCode else code) })
          | _, _ => none

/-- `void checkRelease(uint8_t keyId)` of USBPETKeyboard.ino. -/
def checkRelease (keyId : Nat) (s : State) : Option State :=
  match debounce keyId s.debounceKeys with
  | none => none
  | some (true, tbl) => some { s with debounceKeys := tbl }
  | some (false, tbl) =>
    match releaseScan ((keyId : Int)) s.usbKeys with
    | none => some { s with debounceKeys := tbl }
    | some (keyNum, slots) =>
      match KEY_CODES_SHIFT_NEEDED.get? keyId with
      | none => none
      | some sn =>
        some { s with
          debounceKeys := tbl
          usbKeys := slots
          keysUsed := (s.keysUsed + 255) % 256
          modifiers := if sn then andNot16 s.modifiers MODIFIERKEY_SHIFT else s.modifiers
          keyStateChange := true
          kbKeys := s.kbKeys.set keyNum 0 }

/-- `bool parseSpecial(uint8_t keyId, bool state)` of USBPETKeyboard.ino.
`level = false` is a LOW (pressed) sense reading, `true` is HIGH. -/
def parseSpecial (keyId : Nat) (level : Bool) (s : State) : Option (Bool × State) :=
  if keyId == 64 then
    -- left shift
    if level == false && s.lShift == false then
      match debounce keyId s.debounceKeys with
      | none => none
      | some (true, tbl) => some (true, { s with debounceKeys := tbl })
      | some (false, tbl) =>
        some (true, { s with debounceKeys := tbl, lShift := true, keyStateChange := true })
    else if level == true && s.lShift == true then
      match debounce keyId s.debounceKeys with
      | none => none
      | some (true, tbl) => some (true, { s with debounceKeys := tbl })
      | some (false, tbl) =>
        some (true, { s with debounceKeys := tbl, lShift := false, keyStateChange := true })
    else some (true, s)
  else if keyId == 69 then
    -- right shift
    if level == false && s.rShift == false then
      match debounce keyId s.debounceKeys with
      | none => none
      | some (true, tbl) => some (true, { s with debounceKeys := tbl })
      | some (false, tbl) =>
        some (true, { s with debounceKeys := tbl, rShift := true, keyStateChange := true })
    else if level == true && s.rShift == true then
      match debounce keyId s.debounceKeys with
      | none => none
      | some (true, tbl) => some (true, { s with debounceKeys := tbl })
      | some (false, tbl) =>
        some (true, { s with debounceKeys := tbl, rShift := false, keyStateChange := true })
    else some (true, s)
  else if keyId == 72 then
    -- control
    if level == false then
      match debounce keyId s.debounceKeys with
      | none => none
      | some (true, tbl) => some (true, { s with debounceKeys := tbl })
      | some (false, tbl) =>
        some (true, { s with
          debounceKeys := tbl
          modifiers := s.modifiers ||| MODIFIERKEY_CTRL
          keyStateChange := true })
    else
      match debounce keyId s.debounceKeys with
      | none => none
      | some (true, tbl) => some (true, { s with debounceKeys := tbl })
      | some (false, tbl) =>
        some (true, { s with
          debounceKeys := tbl
          modifiers := andNot16 s.modifiers MODIFIERKEY_CTRL
          keyStateChange := true })
  else if keyId == 7 then
    -- horizontal CRSR
    if level == false then
      (if s.lShift || s.rShift then setKey keyId KEY_LEFT s else setKey keyId KEY_RIGHT s).map
        (fun p => (true, { p.2 with rArrow := true }))
    else (checkRelease keyId s).map (fun s1 => (true, { s1 with rArrow := false }))
  else if keyId == 14 then
    -- vertical CRSR
    if level == false then
      (if s.lShift || s.rShift then setKey keyId KEY_UP s else setKey keyId KEY_DOWN s).map
        (fun p => (true, { p.2 with lArrow := true }))
    else (checkRelease keyId s).map (fun s1 => (true, { s1 with lArrow := false }))
  else some (false, s)

/-- Body of the inner scan loop of `detectKeys` for one matrix position:
`parseSpecial` first, then the generic `setKey`/`checkRelease` path. -/
def detectStep (s : State) (ob : Nat × Bool) : Option State :=
  match parseSpecial ob.1 ob.2 s with
  | none => none
  | some (true, s1) => some s1
  | some (false, s1) =>
    if ob.2 == false then (setKey ob.1 0 s1).map (fun p => p.2)
    else checkRelease ob.1 s1

/-- `detectKeys`, folded over the list of (keyId, sense level) observations
the matrix sweep produces. -/
def detectKeys : List (Nat × Bool) → State → Option State
  | [], s => some s
  | ob :: rest, s =>
    match detectStep s ob with
    | none => none
    | some s1 => detectKeys rest s1

/-- `uint8_t getKeyId(uint8_t i, uint8_t j)`: `(i*8) + (j)`. -/
def getKeyId (i j : Nat) : Nat := i * 8 + j

/-- The observation list of one full matrix sweep (drive-major, sense-minor)
for a given pressed-set; a pressed key reads LOW (`false`). -/
def sweepObs (pressed : Nat → Bool) : List (Nat × Bool) :=
  ((List.range 10).map (fun i =>
    (List.range 8).map (fun j => (getKeyId i j, !pressed (getKeyId i j))))).flatten

/-- The composition-time deferred-Shift predicate of `loop`:
`!(lArrow || rArrow) && (lShift || rShift)`. -/
def deferredShift (s : State) : Bool := !(s.lArrow || s.rArrow) && (s.lShift || s.rShift)

/-- The report-decision tail of `loop`: if `keyStateChange` is set, apply the
deferred Shift rule, clear the flag, transmit one report, then strip the
transient Shift bit. -/
def composeSend (s : State) : State × List Report :=
  if s.keyStateChange then
    let m1 := if deferredShift s then s.modifiers ||| MODIFIERKEY_SHIFT else s.modifiers
    ({ s with
       modifiers := andNot16 m1 MODIFIERKEY_SHIFT
       keyStateChange := false
       kbMods := m1 },
     [⟨m1, s.kbKeys⟩])
  else (s, [])

/-- One execution of `loop` over an explicit observation list. -/
def loopObs (obs : List (Nat × Bool)) (s : State) : Option (State × List Report) :=
  (detectKeys obs s).map composeSend

/-- One execution of `loop` with the real full matrix sweep. -/
def loopFull (pressed : Nat → Bool) (s : State) : Option (State × List Report) :=
  loopObs (sweepObs pressed) s

/-- Lengths of the three fixed-size arrays of the driver state. -/
def WF (s : State) : Prop :=
  s.usbKeys.length = 6 ∧ s.debounceKeys.length = 6 ∧ s.kbKeys.length = 6

instance (s : State) : Decidable (WF s) := by
  unfold WF; infer_instance

end Pet

namespace Vice

/-- Debounce delay of USBPETKeyboardForVICE.ino. -/
def DEBOUNCE_DELAY : Int := 2

/-- `KEY_CODES` table of USBPETKeyboardForVICE.ino. -/
def KEY_CODES : List Nat :=
  [ KEY_F1, KEY_F3, KEY_F5, KEY_F7, KEY_F9, KEY_MINUS, KEY_HOME, KEY_0,
    KEY_F2, KEY_F4, KEY_F6, KEY_F8, KEY_F10, KEY_0, KEY_0, KEY_BACKSPACE,
    KEY_Q, KEY_E, KEY_T, KEY_U, KEY_O, KEY_BACKSLASH, KEY_7, KEY_9,
    KEY_W, KEY_R, KEY_Y, KEY_I, KEY_P, KEY_0, KEY_8, KEYPAD_SLASH,
    KEY_A, KEY_D, KEY_G, KEY_J, KEY_L, KEY_0, KEY_4, KEY_6,
    KEY_S, KEY_F, KEY_H, KEY_K, KEY_F11, KEY_0, KEY_5, KEYPAD_ASTERIX,
    KEY_Z, KEY_C, KEY_B, KEY_M, KEY_SEMICOLON, KEY_ENTER, KEY_1, KEY_3,
    KEY_X, KEY_V, KEY_N, KEY_F12, KEY_SLASH, KEY_0, KEY_2, KEYPAD_PLUS,
    KEY_0, KEY_ESC, KEY_RIGHT_BRACE, KEY_0, KEY_PERIOD, KEY_0, KEY_0, KEY_TILDE,
    KEY_TAB, KEY_LEFT_BRACE, KEY_SPACE, KEY_COMMA, KEY_0, KEY_0, KEY_QUOTE, KEY_EQUAL ]

/-- `KEY_CODES_SHIFT_NEEDED` of the VICE variant: all false. -/
def KEY_CODES_SHIFT_NEEDED : List Bool := List.replicate 80 false

/-- Interval between alt-lock heartbeat tones, in milliseconds. -/
def interval : Nat := 1250

/-- Global mutable state of USBPETKeyboardForVICE.ino; compared with the PET
driver it adds the `rAlt`/`lAlt` one-shot flags, the `altLockActive` latch and
`previousMillis`. -/
structure State where
  debounceKeys : List (Int × Int)
  usbKeys : List Int
  keysUsed : Nat
  lShift : Bool
  rShift : Bool
  ctrl : Bool
  lArrow : Bool
  rArrow : Bool
  rAlt : Bool
  lAlt : Bool
  altLockActive : Bool
  previousMillis : Nat
  modifiers : Nat
  keyStateChange : Bool
  kbMods : Nat
  kbKeys : List Nat
deriving DecidableEq, Repr

/-- Initial state of the VICE driver's globals. -/
def initState : State where
  debounceKeys := List.replicate 6 ((0 : Int), (0 : Int))
  usbKeys := List.replicate 6 (-1 : Int)
  keysUsed := 0
  lShift := false
  rShift := false
  ctrl := false
  lArrow := false
  rArrow := false
  rAlt := false
  lAlt := false
  altLockActive := false
  previousMillis := 0
  modifiers := 0
  keyStateChange := false
  kbMods := 0
  kbKeys := List.replicate 6 0

/-- First `for` loop of the VICE `debounce` (same logic as the PET one). -/
def debounceLoop1 (keyId : Nat) : List (Int × Int) → Option (Bool × List (Int × Int))
  | [] => none
  | e :: rest =>
    if e.1 == (keyId : Int) then
      if e.2 != 1 then some (true, (e.1, wrap8 (e.2 - 1)) :: rest)
      else if e.2 == 1 then some (false, (e.1, 0) :: rest)
      else if e.2 == 0 then some (true, (e.1, DEBOUNCE_DELAY) :: rest)
      else (debounceLoop1 keyId rest).map (fun p => (p.1, e :: p.2))
    else (debounceLoop1 keyId rest).map (fun p => (p.1, e :: p.2))

/-- Second `for` loop of the VICE `debounce`. -/
def debounceLoop2 (keyId : Nat) : List (Int × Int) → Option (List (Int × Int))
  | [] => none
  | e :: rest =>
    if e.2 == 0 then some ((toInt8 keyId, DEBOUNCE_DELAY) :: rest)
    else (debounceLoop2 keyId rest).map (fun l => e :: l)

/-- `bool debounce(uint8_t keyId)` of USBPETKeyboardForVICE.ino. -/
def debounce (keyId : Nat) (tbl : List (Int × Int)) : Option (Bool × List (Int × Int)) :=
  match debounceLoop1 keyId tbl with
  | some r => some r
  | none => (debounceLoop2 keyId tbl).map (fun l => (true, l))

/-- `bool setKey(uint8_t keyId, uint16_t keyCode)` of USBPETKeyboardForVICE.ino. -/
def setKey (keyId keyCode : Nat) (s : State) : Option (Bool × State) :=
  if s.keysUsed == 6 then some (false, s)
  else
    match debounce keyId s.debounceKeys with
    | none => none
    | some (true, tbl) => some (false, { s with debounceKeys := tbl })
    | some (false, tbl) =>
      if s.usbKeys.any (fun v => v == (keyId : Int)) then
        some (true, { s with debounceKeys := tbl })
      else
        match Pet.allocScan (toInt8 keyId) s.usbKeys with
        | none => some (false, { s with debounceKeys := tbl })
        | some (keyNum, slots) =>
          match KEY_CODES.get? keyId, KEY_CODES_SHIFT_NEEDED.get? keyId with
          | some code, some sn =>
            some (true,
              { s with
                debounceKeys := tbl
                usbKeys := slots
                keysUsed := (s.keysUsed + 1) % 256
                modifiers := if sn then s.modifiers ||| MODIFIERKEY_SHIFT else s.modifiers
                keyStateChange := true
                kbKeys := s.kbKeys.set keyNum (if keyCode != 0 then keyCode else code) })
          | _, _ => none

/-- `void checkRelease(uint8_t keyId)` of USBPETKeyboardForVICE.ino. -/
def checkRelease (keyId : Nat) (s : State) : Option State :=
  match debounce keyId s.debounceKeys with
  | none => none
  | some (true, tbl) => some { s with debounceKeys := tbl }
  | some (false, tbl) =>
    match Pet.releaseScan ((keyId : Int)) s.usbKeys with
    | none => some { s with debounceKeys := tbl }
    | some (keyNum, slots) =>
      match KEY_CODES_SHIFT_NEEDED.get? keyId with
      | none => none
      | some sn =>
        some { s with
          debounceKeys := tbl
          usbKeys := slots
          keysUsed := (s.keysUsed + 255) % 256
          modifiers := if sn then andNot16 s.modifiers MODIFIERKEY_SHIFT else s.modifiers
          keyStateChange := true
          kbKeys := s.kbKeys.set keyNum 0 }

/-- `bool parseSpecial(uint8_t keyId, bool state)` of USBPETKeyboardForVICE.ino.
Left shift (64) pressed while `rShift` is held additionally arms the one-shot
`rAlt`; right shift (69) pressed while `lShift` is held additionally arms the
alt-lock trigger `lAlt`. -/
def parseSpecial (keyId : Nat) (level : Bool) (s : State) : Option (Bool × State) :=
  if keyId == 64 then
    -- left shift
    if level == false && s.lShift == false then
      match debounce keyId s.debounceKeys with
      | none => none
      | some (true, tbl) => some (true, { s with debounceKeys := tbl })
      | some (false, tbl) =>
        let s1 := { s with debounceKeys := tbl, lShift := true, keyStateChange := true }
        some (true, if s1.rShift then { s1 with rAlt := true } else s1)
    else if level == true && s.lShift == true then
      match debounce keyId s.debounceKeys with
      | none => none
      | some (true, tbl) => some (true, { s with debounceKeys := tbl })
      | some (false, tbl) =>
        some (true, { s with debounceKeys := tbl, lShift := false, keyStateChange := true })
    else some (true, s)
  else if keyId == 69 then
    -- right shift
    if level == false && s.rShift == false then
      match debounce keyId s.debounceKeys with
      | none => none
      | some (true, tbl) => some (true, { s with debounceKeys := tbl })
      | some (false, tbl) =>
        let s1 := { s with debounceKeys := tbl, rShift := true, keyStateChange := true }
        some (true, if s1.lShift then { s1 with lAlt := true } else s1)
    else if level == true && s.rShift == true then
      match debounce keyId s.debounceKeys with
      | none => none
      | some (true, tbl) => some (true, { s with debounceKeys := tbl })
      | some (false, tbl) =>
        some (true, { s with debounceKeys := tbl, rShift := false, keyStateChange := true })
    else some (true, s)
  else if keyId == 76 then
    -- RUN/STOP as control
    if level == false then
      match debounce keyId s.debounceKeys with
      | none => none
      | some (true, tbl) => some (true, { s with debounceKeys := tbl })
      | some (false, tbl) =>
        some (true, { s with
          debounceKeys := tbl
          modifiers := s.modifiers ||| MODIFIERKEY_CTRL
          keyStateChange := true })
    else
      match debounce keyId s.debounceKeys with
      | none => none
      | some (true, tbl) => some (true, { s with debounceKeys := tbl })
      | some (false, tbl) =>
        some (true, { s with
          debounceKeys := tbl
          modifiers := andNot16 s.modifiers MODIFIERKEY_CTRL
          keyStateChange := true })
  else if keyId == 7 then
    -- horizontal CRSR
    if level == false then
      (if s.lShift || s.rShift then setKey keyId KEY_LEFT s else setKey keyId KEY_RIGHT s).map
        (fun p => (true, { p.2 with rArrow := true }))
    else (checkRelease keyId s).map (fun s1 => (true, { s1 with rArrow := false }))
  else if keyId == 14 then
    -- vertical CRSR
    if level == false then
      (if s.lShift || s.rShift then setKey keyId KEY_UP s else setKey keyId KEY_DOWN s).map
        (fun p => (true, { p.2 with lArrow := true }))
    else (checkRelease keyId s).map (fun s1 => (true, { s1 with lArrow := false }))
  else some (false, s)

/-- Inner scan-loop body of the VICE `detectKeys`. -/
def detectStep (s : State) (ob : Nat × Bool) : Option State :=
  match parseSpecial ob.1 ob.2 s with
  | none => none
  | some (true, s1) => some s1
  | some (false, s1) =>
    if ob.2 == false then (setKey ob.1 0 s1).map (fun p => p.2)
    else checkRelease ob.1 s1

/-- `detectKeys` of the VICE driver over an observation list. -/
def detectKeys : List (Nat × Bool) → State → Option State
  | [], s => some s
  | ob :: rest, s =>
    match detectStep s ob with
    | none => none
    | some s1 => detectKeys rest s1

/-- Deferred shift rule of the VICE `loop`: the per-side modifier that is ORed
in when no cursor flag is set and a shift latch is held. -/
def deferredMods (s : State) : Nat :=
  if !(s.lArrow || s.rArrow) && (s.lShift || s.rShift) then
    if s.rShift then s.modifiers ||| MODIFIERKEY_RIGHT_SHIFT
    else s.modifiers ||| MODIFIERKEY_LEFT_SHIFT
  else s.modifiers

/-- Report-decision tail of the VICE `loop`: deferred shift, the `lAlt`
alt-lock XOR toggle, the `rAlt` one-shot pulse with its tone, one
`send_now`, then retraction of the transient bits. -/
def composeSend (s : State) : State × List Report × List Tone :=
  if s.keyStateChange then
    let m1 := deferredMods s
    let p2 :=
      if s.lAlt then
        (m1 ^^^ MODIFIERKEY_LEFT_ALT,
         { s with lAlt := false, altLockActive := !s.altLockActive }, ([] : List Tone))
      else (m1, s, ([] : List Tone))
    let m2 := p2.1
    let s2 := p2.2.1
    let p3 :=
      if s2.rAlt then
        (m2 ||| MODIFIERKEY_RIGHT_ALT, { s2 with rAlt := false }, [Tone.mk 400 50])
      else (m2, s2, p2.2.2)
    let m3 := p3.1
    let s3 := p3.2.1
    let mFinal := andNot16 (andNot16 (andNot16 m3 MODIFIERKEY_RIGHT_SHIFT)
      MODIFIERKEY_LEFT_SHIFT) MODIFIERKEY_RIGHT_ALT
    ({ s3 with modifiers := mFinal, keyStateChange := false, kbMods := m3 },
     [Report.mk m3 s3.kbKeys], p3.2.2)
  else (s, [], [])

/-- Alt-lock heartbeat at the end of the VICE `loop`: while `altLockActive`,
play a tone every `interval` milliseconds (32-bit wrap-around subtraction). -/
def heartbeat (currentMillis : Nat) (s : State) : State × List Tone :=
  if s.altLockActive && decide (sub32 currentMillis s.previousMillis ≥ interval) then
    ({ s with previousMillis := currentMillis }, [Tone.mk 220 32])
  else (s, [])

/-- One execution of the VICE `loop` over an observation list. -/
def loopObs (obs : List (Nat × Bool)) (currentMillis : Nat) (s : State) :
    Option (State × List Report × List Tone) :=
  (detectKeys obs s).map (fun d =>
    let r := composeSend d
    let h := heartbeat currentMillis r.1
    (h.1, r.2.1, r.2.2 ++ h.2))

end Vice

namespace Cbm

/-- Debounce delay of the CBM 64 driver. -/
def DEBOUNCE_DELAY : Int := 2

/-- `MODIFIERKEY_GUI` of the Teensy library (used by the CBM 64 driver). -/
def MODIFIERKEY_GUI : Nat := 0x08 ||| 0xE000

/-- `KEY_CODES` table of the CBM 64 driver (9×9, keyId-indexed). -/
def KEY_CODES : List Nat :=
  [ KEY_1, KEY_3, KEY_5, KEY_7, KEY_9, KEYPAD_PLUS, KEY_LEFT_BRACE, KEY_DELETE, KEY_0,
    KEY_ESC, KEY_W, KEY_R, KEY_Y, KEY_I, KEY_P, KEYPAD_ASTERIX, KEY_ENTER, KEY_0,
    MODIFIERKEY_CTRL, KEY_A, KEY_D, KEY_G, KEY_J, KEY_L, KEY_SEMICOLON, 0x50, KEY_0,
    KEY_CAPS_LOCK, MODIFIERKEY_SHIFT, KEY_X, KEY_V, KEY_N, KEY_COMMA, KEY_SLASH, 0x52, KEY_0,
    KEY_SPACE, KEY_Z, KEY_C, KEY_B, KEY_M, KEY_PERIOD, MODIFIERKEY_RIGHT_SHIFT, KEY_F1, KEY_0,
    MODIFIERKEY_GUI, KEY_S, KEY_F, KEY_H, KEY_K, KEY_SEMICOLON, KEY_EQUAL, KEY_F3, KEY_0,
    KEY_Q, KEY_E, KEY_T, KEY_U, KEY_O, KEY_2, KEY_BACKSLASH, KEY_F5, KEY_0,
    KEY_2, KEY_4, KEY_6, KEY_8, KEY_0, KEY_MINUS, KEY_HOME, KEY_F7, KEY_0,
    KEY_TAB, KEY_0, KEY_0, KEY_0, KEY_0, KEY_0, KEY_0, KEY_0, KEY_0 ]

/-- `KEY_CODES_SHIFT_NEEDED` of the CBM 64 driver (`short`, 1 / 0 / -1). -/
def KEY_CODES_SHIFT_NEEDED : List Int :=
  [ 0, 0, 0, 0, 0, 0, 1, 0, 0,
    0, 0, 0, 0, 0, 0, 1, 0, 0,
    0, 0, 0, 0, 0, 0, 0, 0, 0,
    0, 0, 0, 0, 0, 0, 0, 0, 0,
    0, 0, 0, 0, 0, 0, 0, 0, 0,
    0, 0, 0, 0, 0, 0, 0, 0, 0,
    0, 0, 0, 0, 0, 1, 0, 0, 0,
    0, 0, 0, 0, 0, 0, 0, 0, 0,
    0, 0, 0, 0, 0, 0, 0, 0, 0 ]

/-- Global mutable state of the CBM 64 driver (the `lbrace`/`rbrace` booleans
are declared in the source but never used). -/
structure State where
  debounceKeys : List (Int × Int)
  usbKeys : List Int
  keysUsed : Nat
  lShift : Bool
  rShift : Bool
  ctrl : Bool
  lArrow : Bool
  rArrow : Bool
  lbrace : Bool
  rbrace : Bool
  modifiers : Nat
  keyStateChange : Bool
  kbMods : Nat
  kbKeys : List Nat
deriving DecidableEq, Repr

/-- Initial state of the CBM 64 driver's globals. -/
def initState : State where
  debounceKeys := List.replicate 6 ((0 : Int), (0 : Int))
  usbKeys := List.replicate 6 (-1 : Int)
  keysUsed := 0
  lShift := false
  rShift := false
  ctrl := false
  lArrow := false
  rArrow := false
  lbrace := false
  rbrace := false
  modifiers := 0
  keyStateChange := false
  kbMods := 0
  kbKeys := List.replicate 6 0

/-- First `for` loop of the CBM 64 `debounce` (same logic as the PET one). -/
def debounceLoop1 (keyId : Nat) : List (Int × Int) → Option (Bool × List (Int × Int))
  | [] => none
  | e :: rest =>
    if e.1 == (keyId : Int) then
      if e.2 != 1 then some (true, (e.1, wrap8 (e.2 - 1)) :: rest)
      else if e.2 == 1 then some (false, (e.1, 0) :: rest)
      else if e.2 == 0 then some (true, (e.1, DEBOUNCE_DELAY) :: rest)
      else (debounceLoop1 keyId rest).map (fun p => (p.1, e :: p.2))
    else (debounceLoop1 keyId rest).map (fun p => (p.1, e :: p.2))

/-- Second `for` loop of the CBM 64 `debounce`. -/
def debounceLoop2 (keyId : Nat) : List (Int × Int) → Option (List (Int × Int))
  | [] => none
  | e :: rest =>
    if e.2 == 0 then some ((toInt8 keyId, DEBOUNCE_DELAY) :: rest)
    else (debounceLoop2 keyId rest).map (fun l => e :: l)

/-- `bool debounce(uint8_t keyId)` of the CBM 64 driver. -/
def debounce (keyId : Nat) (tbl : List (Int × Int)) : Option (Bool × List (Int × Int)) :=
  match debounceLoop1 keyId tbl with
  | some r => some r
  | none => (debounceLoop2 keyId tbl).map (fun l => (true, l))

/-- `bool setKey(uint8_t keyId, uint16_t keyCode)` of the CBM 64 driver; its
shift policy is tri-state (`== 1` applies Shift, `== -1` force-clears it). -/
def setKey (keyId keyCode : Nat) (s : State) : Option (Bool × State) :=
  if s.keysUsed == 6 then some (false, s)
  else
    match debounce keyId s.debounceKeys with
    | none => none
    | some (true, tbl) => some (false, { s with debounceKeys := tbl })
    | some (false, tbl) =>
      if s.usbKeys.any (fun v => v == (keyId : Int)) then
        some (true, { s with debounceKeys := tbl })
      else
        match Pet.allocScan (toInt8 keyId) s.usbKeys with
        | none => some (false, { s with debounceKeys := tbl })
        | some (keyNum, slots) =>
          match KEY_CODES.get? keyId, KEY_CODES_SHIFT_NEEDED.get? keyId with
          | some code, some sn =>
            some (true,
              { s with
                debounceKeys := tbl
                usbKeys := slots
                keysUsed := (s.keysUsed + 1) % 256
                modifiers :=
                  if sn == 1 then s.modifiers ||| MODIFIERKEY_SHIFT
                  else if sn == -1 then andNot16 s.modifiers MODIFIERKEY_SHIFT
                  else s.modifiers
                keyStateChange := true
                kbKeys := s.kbKeys.set keyNum (if keyCode != 0 then keyCode else code) })
          | _, _ => none

/-- `void checkRelease(uint8_t keyId)` of the CBM 64 driver (`== 1` test on
the shift table). -/
def checkRelease (keyId : Nat) (s : State) : Option State :=
  match debounce keyId s.debounceKeys with
  | none => none
  | some (true, tbl) => some { s with debounceKeys := tbl }
  | some (false, tbl) =>
    match Pet.releaseScan ((keyId : Int)) s.usbKeys with
    | none => some { s with debounceKeys := tbl }
    | some (keyNum, slots) =>
      match KEY_CODES_SHIFT_NEEDED.get? keyId with
      | none => none
      | some sn =>
        some { s with
          debounceKeys := tbl
          usbKeys := slots
          keysUsed := (s.keysUsed + 255) % 256
          modifiers := if sn == 1 then andNot16 s.modifiers MODIFIERKEY_SHIFT else s.modifiers
          keyStateChange := true
          kbKeys := s.kbKeys.set keyNum 0 }

/-- Body of the `case 60` (pointer up) handler of the CBM 64 `parseSpecial`,
without the missing `break`. -/
def pointerUpLogic (level : Bool) (s : State) : Option State :=
  if level == false then (setKey 60 KEY_BACKSLASH s).map (fun p => p.2)
  else checkRelease 60 s

/-- Body of the `case 69` (clr home / end) handler of the CBM 64
`parseSpecial`, parameterized by the `keyId` variable in scope — for a direct
hit this is 69, but when control falls through from `case 60` it is 60. -/
def clrHomeLogic (keyId : Nat) (level : Bool) (s : State) : Option State :=
  if level == false then
    (if s.lShift || s.rShift then setKey keyId KEY_END s
     else setKey keyId KEY_HOME s).map (fun p => p.2)
  else checkRelease keyId s

/-- `bool parseSpecial(uint8_t keyId, bool state)` of the CBM 64 driver.  The
`case 60` arm has no `break`, so it falls through into the `case 69` arm with
`keyId` still 60. -/
def parseSpecial (keyId : Nat) (level : Bool) (s : State) : Option (Bool × State) :=
  if keyId == 6 then
    -- pound symbol
    (if level == false then
      (if s.lShift || s.rShift then setKey keyId 0 s
       else setKey keyId KEY_LEFT_BRACE s).map (fun p => p.2)
     else checkRelease keyId s).map (fun s1 => (true, s1))
  else if keyId == 7 then
    -- INST DEL
    (if level == false then
      (if s.lShift || s.rShift then setKey keyId KEY_DELETE s
       else setKey keyId KEY_BACKSPACE s).map (fun p => p.2)
     else checkRelease keyId s).map (fun s1 => (true, s1))
  else if keyId == 28 then
    -- left shift
    if level == false && s.lShift == false then
      match debounce keyId s.debounceKeys with
      | none => none
      | some (true, tbl) => some (true, { s with debounceKeys := tbl })
      | some (false, tbl) =>
        some (true, { s with debounceKeys := tbl, lShift := true, keyStateChange := true })
    else if level == true && s.lShift == true then
      match debounce keyId s.debounceKeys with
      | none => none
      | some (true, tbl) => some (true, { s with debounceKeys := tbl })
      | some (false, tbl) =>
        some (true, { s with debounceKeys := tbl, lShift := false, keyStateChange := true })
    else some (true, s)
  else if keyId == 42 then
    -- right shift
    if level == false && s.rShift == false then
      match debounce keyId s.debounceKeys with
      | none => none
      | some (true, tbl) => some (true, { s with debounceKeys := tbl })
      | some (false, tbl) =>
        some (true, { s with debounceKeys := tbl, rShift := true, keyStateChange := true })
    else if level == true && s.rShift == true then
      match debounce keyId s.debounceKeys with
      | none => none
      | some (true, tbl) => some (true, { s with debounceKeys := tbl })
      | some (false, tbl) =>
        some (true, { s with debounceKeys := tbl, rShift := false, keyStateChange := true })
    else some (true, s)
  else if keyId == 18 then
    -- control
    if level == false then
      match debounce keyId s.debounceKeys with
      | none => none
      | some (true, tbl) => some (true, { s with debounceKeys := tbl })
      | some (false, tbl) =>
        some (true, { s with
          debounceKeys := tbl
          modifiers := s.modifiers ||| MODIFIERKEY_CTRL
          keyStateChange := true })
    else
      match debounce keyId s.debounceKeys with
      | none => none
      | some (true, tbl) => some (true, { s with debounceKeys := tbl })
      | some (false, tbl) =>
        some (true, { s with
          debounceKeys := tbl
          modifiers := andNot16 s.modifiers MODIFIERKEY_CTRL
          keyStateChange := true })
  else if keyId == 25 then
    -- horizontal CRSR
    if level == false then
      (if s.lShift || s.rShift then setKey keyId KEY_LEFT s else setKey keyId KEY_RIGHT s).map
        (fun p => (true, { p.2 with rArrow := true }))
    else (checkRelease keyId s).map (fun s1 => (true, { s1 with rArrow := false }))
  else if keyId == 27 then
    -- run stop (becomes alt)
    if level == false then
      match debounce keyId s.debounceKeys with
      | none => none
      | some (true, tbl) => some (true, { s with debounceKeys := tbl })
      | some (false, tbl) =>
        some (true, { s with
          debounceKeys := tbl
          modifiers := s.modifiers ||| MODIFIERKEY_ALT
          keyStateChange := true })
    else
      match debounce keyId s.debounceKeys with
      | none => none
      | some (true, tbl) => some (true, { s with debounceKeys := tbl })
      | some (false, tbl) =>
        some (true, { s with
          debounceKeys := tbl
          modifiers := andNot16 s.modifiers MODIFIERKEY_ALT
          keyStateChange := true })
  else if keyId == 34 then
    -- vertical CRSR
    if level == false then
      (if s.lShift || s.rShift then setKey keyId KEY_UP s else setKey keyId KEY_DOWN s).map
        (fun p => (true, { p.2 with lArrow := true }))
    else (checkRelease keyId s).map (fun s1 => (true, { s1 with lArrow := false }))
  else if keyId == 45 then
    -- commodore key
    if level == false then
      match debounce keyId s.debounceKeys with
      | none => none
      | some (true, tbl) => some (true, { s with debounceKeys := tbl })
      | some (false, tbl) =>
        some (true, { s with
          debounceKeys := tbl
          modifiers := s.modifiers ||| MODIFIERKEY_GUI
          keyStateChange := true })
    else
      match debounce keyId s.debounceKeys with
      | none => none
      | some (true, tbl) => some (true, { s with debounceKeys := tbl })
      | some (false, tbl) =>
        some (true, { s with
          debounceKeys := tbl
          modifiers := andNot16 s.modifiers MODIFIERKEY_GUI
          keyStateChange := true })
  else if keyId == 50 then
    -- colon
    (if level == false then
      if s.lShift || s.rShift then (setKey keyId KEY_LEFT_BRACE s).map (fun p => p.2)
      else
        let s1 := { s with modifiers := s.modifiers ||| MODIFIERKEY_SHIFT }
        (setKey keyId KEY_SEMICOLON s1).map (fun p => p.2)
     else
      let s1 := { s with modifiers := andNot16 s.modifiers MODIFIERKEY_SHIFT }
      checkRelease keyId s1).map (fun s1 => (true, s1))
  else if keyId == 60 then
    -- pointer up; no break: falls through into the clr home case with keyId 60
    ((pointerUpLogic level s).bind (clrHomeLogic 60 level)).map (fun s2 => (true, s2))
  else if keyId == 69 then
    -- clr home / end
    (clrHomeLogic 69 level s).map (fun s2 => (true, s2))
  else if keyId == 80 then
    -- restore
    (if level == false then (setKey keyId KEY_TAB s).map (fun p => p.2)
     else checkRelease keyId s).map (fun s1 => (true, s1))
  else some (false, s)

end Cbm

/-!
Claim theorems.
-/

/-- Iterate `Pet.debounce` over a list of keyIds, keeping only the table. -/
def Pet.debounceSeq : List Nat → List (Int × Int) → Option (List (Int × Int))
  | [], t => some t
  | k :: ks, t =>
    match Pet.debounce k t with
    | none => none
    | some (_, t1) => Pet.debounceSeq ks t1

/-- Claim C2 (code bug): the spec scenario — press the key at drive 0 / sense 0
(keyId 0, mapped to KEY_1) from the initial state; cycle 1 suppressed, cycle 2
admitted, one report with KEY_1.  In the code the initial `debounceKeys` table
already tracks keyId 0 at countdown 0, so the press is decremented to -1
instead of being armed, and the same first sweep reaches the undefined
fall-through of `debounce` (at keyId 6), so the very first `loop` execution of
the scenario has no defined result at all. -/
theorem C2_scenario_undefined :
    Pet.KEY_CODES.get? (Pet.getKeyId 0 0) = some KEY_1 ∧
    Pet.debounce 0 Pet.initState.debounceKeys =
      some (true, [(0, -1), (0, 0), (0, 0), (0, 0), (0, 0), (0, 0)]) ∧
    Pet.loopFull (fun k => k == 0) Pet.initState = none :=
  ⟨rfl, rfl, rfl⟩

/-- Claim C4 (code bug): `debounce` does not always return a value.  Starting
from the initial table, the six calls for keyIds 0..5 (as performed by the
first matrix sweep) leave every countdown nonzero, and the next call, for the
untracked keyId 6, matches no entry and finds no free entry, reaching the end
of the non-void function without a `return` (undefined behavior), modelled as
`none`. -/
theorem C4_debounce_undefined :
    Pet.debounceSeq [0, 1, 2, 3, 4, 5] Pet.initState.debounceKeys =
      some [(0, -1), (1, 2), (2, 2), (3, 2), (4, 2), (5, 2)] ∧
    Pet.debounce 6 [(0, -1), (1, 2), (2, 2), (3, 2), (4, 2), (5, 2)] = none :=
  ⟨rfl, rfl⟩

/-- Claim C3 (confirmed): at most 6 `usbKeys` slots are ever occupied, and
`setKey` called with `keysUsed == 6` returns false and leaves the whole state
(slots, `keysUsed`, `modifiers`, pending key codes) unchanged. -/
theorem C3_report_capacity :
    ∀ (s : Pet.State) (keyId keyCode : Nat), Pet.WF s →
      countOcc s.usbKeys ≤ 6 ∧
      (s.keysUsed = 6 → Pet.setKey keyId keyCode s = some (false, s)) := by
  intro s keyId keyCode hwf
  constructor
  · calc countOcc s.usbKeys ≤ s.usbKeys.length := List.countP_le_length _
    _ = 6 := hwf.1
  · intro h6
    unfold Pet.setKey
    simp [h6]

/-- Fully occupied concrete state used to witness `C3_report_capacity`. -/
def Pet.sFull : Pet.State :=
  { Pet.initState with usbKeys := [0, 1, 2, 3, 4, 5], keysUsed := 6 }

/-- Witness for `C3_report_capacity` at a concrete fully-occupied state. -/
theorem C3_report_capacity_witness :
    Pet.WF Pet.sFull ∧ Pet.sFull.keysUsed = 6 ∧
    countOcc Pet.sFull.usbKeys ≤ 6 ∧
    Pet.setKey 7 0 Pet.sFull = some (false, Pet.sFull) :=
  ⟨by decide, rfl, (C3_report_capacity Pet.sFull 7 0 (by decide)).1,
   (C3_report_capacity Pet.sFull 7 0 (by decide)).2 rfl⟩

/-- Concrete state for the C8 counterexample: keyId 0 occupies slot 0, only
one slot is used, and the debounce entry for keyId 0 is mid-countdown. -/
def Pet.sOcc : Pet.State :=
  { Pet.initState with
    usbKeys := [0, -1, -1, -1, -1, -1]
    keysUsed := 1
    debounceKeys := [(0, 2), (0, 0), (0, 0), (0, 0), (0, 0), (0, 0)] }

/-- Claim C8 counterexample: with keyId 0 already occupying a slot and fewer
than 6 slots used, `setKey(0, 0)` returns false (the debounce gate suppresses
before the idempotence check), not true as the claim states. -/
theorem C8_counterexample :
    Pet.sOcc.usbKeys.any (fun v => v == ((0 : Nat) : Int)) = true ∧
    Pet.sOcc.keysUsed < 6 ∧
    (Pet.setKey 0 0 Pet.sOcc).map Prod.fst = some false :=
  ⟨rfl, by decide, rfl⟩

/-- Claim C8 (amended): for a keyId already occupying a slot and fewer than 6
slots used, `setKey` returns true exactly when the debounce gate admits and
false when it suppresses; in either case nothing changes except the debounce
table — no second slot is allocated and `usbKeys`, `keysUsed`, `modifiers`,
`keyStateChange` and the pending key codes are untouched. -/
theorem C8_idempotent :
    ∀ (s : Pet.State) (keyId keyCode : Nat) (b : Bool) (tbl : List (Int × Int)),
      s.usbKeys.any (fun v => v == (keyId : Int)) = true →
      s.keysUsed < 6 →
      Pet.debounce keyId s.debounceKeys = some (b, tbl) →
      Pet.setKey keyId keyCode s = some (!b, { s with debounceKeys := tbl }) := by
  intro s keyId keyCode b tbl hocc hlt hdb
  have h6 : (s.keysUsed == 6) = false := by
    simp only [beq_eq_false_iff_ne, ne_eq]
    omega
  unfold Pet.setKey
  rw [h6, hdb]
  cases b
  · simp [hocc]
  · simp

/-- Concrete state for the `C8_idempotent` witness: keyId 0 occupies slot 0
and its debounce entry is at countdown 1 (about to admit). -/
def Pet.sOccAdmit : Pet.State :=
  { Pet.initState with
    usbKeys := [0, -1, -1, -1, -1, -1]
    keysUsed := 1
    debounceKeys := [(0, 1), (0, 0), (0, 0), (0, 0), (0, 0), (0, 0)] }

/-- Witness for `C8_idempotent` at a concrete admitting state. -/
theorem C8_idempotent_witness :
    Pet.sOccAdmit.usbKeys.any (fun v => v == ((0 : Nat) : Int)) = true ∧
    Pet.sOccAdmit.keysUsed < 6 ∧
    Pet.debounce 0 Pet.sOccAdmit.debounceKeys =
      some (false, [(0, 0), (0, 0), (0, 0), (0, 0), (0, 0), (0, 0)]) ∧
    Pet.setKey 0 0 Pet.sOccAdmit =
      some (true, { Pet.sOccAdmit with
        debounceKeys := [(0, 0), (0, 0), (0, 0), (0, 0), (0, 0), (0, 0)] }) :=
  ⟨rfl, by decide, rfl,
   C8_idempotent Pet.sOccAdmit 0 0 false
     [(0, 0), (0, 0), (0, 0), (0, 0), (0, 0), (0, 0)] rfl (by decide) rfl⟩

/-- Claim C5 (confirmed): one execution of `loop` (PET and VICE drivers)
transmits at most one report, and transmits exactly when `keyStateChange` is
set after the `detectKeys` sweep; a cycle with no change transmits nothing. -/
theorem C5_single_report :
    (∀ (obs : List (Nat × Bool)) (s d : Pet.State),
      Pet.detectKeys obs s = some d →
        Pet.loopObs obs s = some (Pet.composeSend d) ∧
        (Pet.composeSend d).2.length ≤ 1 ∧
        ((Pet.composeSend d).2 ≠ [] ↔ d.keyStateChange = true)) ∧
    (∀ (obs : List (Nat × Bool)) (m : Nat) (s d : Vice.State),
      Vice.detectKeys obs s = some d →
        Vice.loopObs obs m s = some
          ((Vice.heartbeat m (Vice.composeSend d).1).1, (Vice.composeSend d).2.1,
            (Vice.composeSend d).2.2 ++ (Vice.heartbeat m (Vice.composeSend d).1).2) ∧
        (Vice.composeSend d).2.1.length ≤ 1 ∧
        ((Vice.composeSend d).2.1 ≠ [] ↔ d.keyStateChange = true)) := by
  constructor
  · intro obs s d h
    refine ⟨by simp [Pet.loopObs, h], ?_, ?_⟩
    · unfold Pet.composeSend
      cases hc : d.keyStateChange <;> simp [hc]
    · unfold Pet.composeSend
      cases hc : d.keyStateChange <;> simp [hc]
  · intro obs m s d h
    refine ⟨by simp [Vice.loopObs, h], ?_, ?_⟩
    · unfold Vice.composeSend
      cases hc : d.keyStateChange <;> simp [hc]
    · unfold Vice.composeSend
      cases hc : d.keyStateChange <;> simp [hc]

/-- Concrete entry state with a pending change, for the C5 witness. -/
def Pet.sChanged : Pet.State := { Pet.initState with keyStateChange := true }

/-- Witness for `C5_single_report`: a changed cycle sends exactly one report
and an unchanged cycle sends none. -/
theorem C5_single_report_witness :
    (Pet.detectKeys [] Pet.sChanged = some Pet.sChanged ∧
     (Pet.composeSend Pet.sChanged).2.length ≤ 1 ∧
     ((Pet.composeSend Pet.sChanged).2 ≠ [] ↔ Pet.sChanged.keyStateChange = true)) ∧
    (Vice.detectKeys [] Vice.initState = some Vice.initState ∧
     (Vice.composeSend Vice.initState).2.1.length ≤ 1 ∧
     ((Vice.composeSend Vice.initState).2.1 ≠ [] ↔ Vice.initState.keyStateChange = true)) :=
  ⟨⟨rfl, (C5_single_report.1 [] Pet.sChanged Pet.sChanged rfl).2.1,
    (C5_single_report.1 [] Pet.sChanged Pet.sChanged rfl).2.2⟩,
   ⟨rfl, (C5_single_report.2 [] 0 Vice.initState Vice.initState rfl).2.1,
    (C5_single_report.2 [] 0 Vice.initState Vice.initState rfl).2.2⟩⟩

/-- Claim C1 counterexample: a call on a matched idle entry (countdown 0) does
not re-arm the countdown at DEBOUNCE_DELAY as the claim states; from the
initial table a call for keyId 0 takes the decrement branch and the countdown
becomes -1 (still suppressing).  The explicit re-arm branch in the source is
dead code. -/
theorem C1_counterexample :
    Pet.debounce 0 Pet.initState.debounceKeys =
      some (true, [(0, -1), (0, 0), (0, 0), (0, 0), (0, 0), (0, 0)]) ∧
    Pet.debounce 0 Pet.initState.debounceKeys ≠
      some (true, [(0, Pet.DEBOUNCE_DELAY), (0, 0), (0, 0), (0, 0), (0, 0), (0, 0)]) :=
  ⟨rfl, by decide⟩

/-- The countdown protocol the code actually implements, stated over the first
matching table row (amended claim C1): a matching row with countdown 1 admits
and resets to 0; a matching row with any other countdown — including an idle
0, which becomes -1 rather than re-arming — decrements and suppresses; if no
row matches, the first idle row (countdown 0) is re-armed at `DEBOUNCE_DELAY`
for this keyId and the call suppresses; if no row matches and none is idle,
the function returns no value at all. -/
def Pet.debounceSpec (keyId : Nat) (tbl : List (Int × Int)) :
    Option (Bool × List (Int × Int)) :=
  match firstIdx (fun e => e.1 == (keyId : Int)) tbl with
  | some i =>
    match tbl.get? i with
    | some e =>
      if e.2 == 1 then some (false, tbl.set i (e.1, 0))
      else some (true, tbl.set i (e.1, wrap8 (e.2 - 1)))
    | none => none
  | none =>
    match firstIdx (fun e => e.2 == 0) tbl with
    | some j => some (true, tbl.set j (toInt8 keyId, DEBOUNCE_DELAY))
    | none => none

theorem firstIdx_lt_length {α : Type} (p : α → Bool) :
    ∀ (l : List α) (i : Nat), firstIdx p l = some i → i < l.length := by
  intro l
  induction l with
  | nil => intro i h; cases h
  | cons a rest ih =>
    intro i h
    by_cases hp : p a = true
    · simp [firstIdx, hp] at h
      simp
      omega
    · simp [firstIdx, hp, Option.map_eq_some'] at h
      obtain ⟨j, hj, hji⟩ := h
      have := ih j hj
      simp
      omega

theorem Pet.debounceLoop1_eq (keyId : Nat) :
    ∀ tbl : List (Int × Int),
      Pet.debounceLoop1 keyId tbl =
        match firstIdx (fun e => e.1 == (keyId : Int)) tbl with
        | some i =>
          match tbl.get? i with
          | some e =>
            if e.2 == 1 then some (false, tbl.set i (e.1, 0))
            else some (true, tbl.set i (e.1, wrap8 (e.2 - 1)))
          | none => none
        | none => none := by
  intro tbl
  induction tbl with
  | nil => rfl
  | cons e rest ih =>
    by_cases hm : (e.1 == (keyId : Int)) = true
    · by_cases h2 : (e.2 == 1) = true
      · have h1 : (e.2 != 1) = false := by simp_all
        simp [Pet.debounceLoop1, firstIdx, hm, h1, h2]
      · have h1 : (e.2 != 1) = true := by simp_all
        simp [Pet.debounceLoop1, firstIdx, hm, h1, h2]
    · have hm' : (e.1 == (keyId : Int)) = false := by simp_all
      simp only [Pet.debounceLoop1, firstIdx, hm', Bool.false_eq_true, if_false, ih]
      cases hfi : firstIdx (fun e => e.1 == (keyId : Int)) rest with
      | none => simp
      | some i =>
        simp only [Option.map_some]
        cases hg : rest.get? i with
        | none =>
          rw [List.get?_eq_getElem?] at hg
          simp [hg]
        | some e' =>
          rw [List.get?_eq_getElem?] at hg
          by_cases h2 : (e'.2 == 1) = true
          · simp [hg, h2, List.set_cons_succ]
          · simp [hg, h2, List.set_cons_succ]

theorem Pet.debounceLoop2_eq (keyId : Nat) :
    ∀ tbl : List (Int × Int),
      Pet.debounceLoop2 keyId tbl =
        match firstIdx (fun e => e.2 == 0) tbl with
        | some j => some (tbl.set j (toInt8 keyId, DEBOUNCE_DELAY))
        | none => none := by
  intro tbl
  induction tbl with
  | nil => rfl
  | cons e rest ih =>
    by_cases h0 : (e.2 == 0) = true
    · simp [Pet.debounceLoop2, firstIdx, h0]
    · simp only [Pet.debounceLoop2, firstIdx, h0, Bool.false_eq_true, if_false, ih]
      cases hfi : firstIdx (fun e => e.2 == 0) rest with
      | none => simp
      | some j => simp [List.set_cons_succ]

/-- Claim C1 (amended): `debounce` implements exactly the first-matching-row
protocol described by `Pet.debounceSpec` — in particular the idle-row re-arm
happens only for a keyId matching no row, while a matched idle row is
decremented to -1. -/
theorem C1_debounce_protocol :
    ∀ (keyId : Nat) (tbl : List (Int × Int)),
      Pet.debounce keyId tbl = Pet.debounceSpec keyId tbl := by
  intro keyId tbl
  unfold Pet.debounce Pet.debounceSpec
  rw [Pet.debounceLoop1_eq, Pet.debounceLoop2_eq]
  cases hfi : firstIdx (fun e => e.1 == (keyId : Int)) tbl with
  | none =>
    cases hfj : firstIdx (fun e => e.2 == 0) tbl with
    | none => simp
    | some j => simp
  | some i =>
    cases hg : tbl.get? i with
    | none =>
      rw [List.get?_eq_getElem?] at hg
      have hlt := firstIdx_lt_length _ tbl i hfi
      rw [List.getElem?_eq_none_iff] at hg
      omega
    | some e =>
      rw [List.get?_eq_getElem?] at hg
      by_cases h2 : (e.2 == 1) = true <;> simp [hg, h2]

/-- Claim C9 (confirmed): in the CBM 64 driver the `case 60` (pointer up) arm
of `parseSpecial` has no `break`, so every call with keyId 60 also executes
the `case 69` (clr home / end) logic in the same call, with `keyId` still 60:
a press additionally runs `setKey(60, KEY_END)` or `setKey(60, KEY_HOME)`
depending on Shift, and a release additionally runs `checkRelease(60)` a
second time; a direct keyId-69 call runs only that same clr-home logic. -/
theorem C9_fallthrough :
    (∀ (level : Bool) (s : Cbm.State),
      Cbm.parseSpecial 60 level s =
        ((Cbm.pointerUpLogic level s).bind (Cbm.clrHomeLogic 60 level)).map
          (fun s2 => (true, s2))) ∧
    (∀ (level : Bool) (s : Cbm.State),
      Cbm.parseSpecial 69 level s =
        (Cbm.clrHomeLogic 69 level s).map (fun s2 => (true, s2))) ∧
    (∀ s : Cbm.State,
      Cbm.pointerUpLogic false s = (Cbm.setKey 60 KEY_BACKSLASH s).map (fun p => p.2)) ∧
    (∀ s : Cbm.State, Cbm.pointerUpLogic true s = Cbm.checkRelease 60 s) ∧
    (∀ s : Cbm.State,
      Cbm.clrHomeLogic 60 false s =
        (if s.lShift || s.rShift then Cbm.setKey 60 KEY_END s
         else Cbm.setKey 60 KEY_HOME s).map (fun p => p.2)) ∧
    (∀ s : Cbm.State, Cbm.clrHomeLogic 60 true s = Cbm.checkRelease 60 s) :=
  ⟨fun _ _ => rfl, fun _ _ => rfl, fun _ => rfl, fun _ => rfl, fun _ => rfl, fun _ => rfl⟩

/-- Concrete VICE state with Left Shift latched and the keyId-69 debounce
entry about to admit. -/
def Vice.sLHeld : Vice.State :=
  { Vice.initState with
    lShift := true
    debounceKeys := [(69, 1), (0, 0), (0, 0), (0, 0), (0, 0), (0, 0)] }

/-- Claim C6 counterexample: pressing Right Shift (keyId 69) while Left Shift
is already held does not arm the one-shot transient Alt pulse — it arms the
persistent alt-lock trigger instead: `lAlt` becomes true while `rAlt` stays
false (the claim has the two combos swapped). -/
theorem C6_counterexample :
    (Vice.parseSpecial 69 false Vice.sLHeld).map
      (fun p => (p.2.lAlt, p.2.rAlt, p.2.rShift)) = some (true, false, true) := rfl

/-- Claim C6 (amended, combos swapped to match the code): pressing Right
Shift while Left Shift is held arms the persistent alt-lock trigger `lAlt`,
whose next composed report XOR-toggles MODIFIERKEY_LEFT_ALT and flips
`altLockActive` (the latch that drives the periodic heartbeat tone); pressing
Left Shift while Right Shift is held arms the one-shot `rAlt`, whose next
composed report ORs in MODIFIERKEY_RIGHT_ALT exactly once with an immediate
tone(400, 50) and retracts the bit after sending; both presses still run the
base shift edge transition; while `altLockActive` holds and the interval has
elapsed, the heartbeat plays tone(220, 32). -/
theorem C6_alt_combos :
    (∀ (s : Vice.State) (tbl : List (Int × Int)),
      s.lShift = true → s.rShift = false →
      Vice.debounce 69 s.debounceKeys = some (false, tbl) →
      Vice.parseSpecial 69 false s =
        some (true, { s with
          debounceKeys := tbl
          rShift := true
          keyStateChange := true
          lAlt := true })) ∧
    (∀ (s : Vice.State) (tbl : List (Int × Int)),
      s.rShift = true → s.lShift = false →
      Vice.debounce 64 s.debounceKeys = some (false, tbl) →
      Vice.parseSpecial 64 false s =
        some (true, { s with
          debounceKeys := tbl
          lShift := true
          keyStateChange := true
          rAlt := true })) ∧
    (∀ d : Vice.State, d.keyStateChange = true → d.lAlt = true → d.rAlt = false →
      (Vice.composeSend d).2.1 =
        [Report.mk (Vice.deferredMods d ^^^ MODIFIERKEY_LEFT_ALT) d.kbKeys] ∧
      (Vice.composeSend d).2.2 = [] ∧
      (Vice.composeSend d).1.lAlt = false ∧
      (Vice.composeSend d).1.altLockActive = !d.altLockActive) ∧
    (∀ d : Vice.State, d.keyStateChange = true → d.rAlt = true → d.lAlt = false →
      (Vice.composeSend d).2.1 =
        [Report.mk (Vice.deferredMods d ||| MODIFIERKEY_RIGHT_ALT) d.kbKeys] ∧
      (Vice.composeSend d).2.2 = [Tone.mk 400 50] ∧
      (Vice.composeSend d).1.rAlt = false ∧
      (Vice.composeSend d).1.modifiers =
        andNot16 (andNot16 (andNot16 (Vice.deferredMods d ||| MODIFIERKEY_RIGHT_ALT)
          MODIFIERKEY_RIGHT_SHIFT) MODIFIERKEY_LEFT_SHIFT) MODIFIERKEY_RIGHT_ALT) ∧
    (∀ (s : Vice.State) (m : Nat), s.altLockActive = true →
      sub32 m s.previousMillis ≥ Vice.interval →
      Vice.heartbeat m s = ({ s with previousMillis := m }, [Tone.mk 220 32])) := by
  refine ⟨?_, ?_, ?_, ?_, ?_⟩
  · intro s tbl hls hrs hdb
    simp [Vice.parseSpecial, hls, hrs, hdb]
  · intro s tbl hrs hls hdb
    simp [Vice.parseSpecial, hls, hrs, hdb]
  · intro d hc hl hr
    refine ⟨?_, ?_, ?_, ?_⟩ <;> simp [Vice.composeSend, hc, hl, hr]
  · intro d hc hr hl
    refine ⟨?_, ?_, ?_, ?_⟩ <;> simp [Vice.composeSend, hc, hl, hr]
  · intro s m hal hint
    simp [Vice.heartbeat, hal, hint]

/-- Concrete VICE state with Right Shift latched and the keyId-64 debounce
entry about to admit. -/
def Vice.sRHeld : Vice.State :=
  { Vice.initState with
    rShift := true
    debounceKeys := [(64, 1), (0, 0), (0, 0), (0, 0), (0, 0), (0, 0)] }

/-- Concrete changed VICE state with the alt-lock trigger armed. -/
def Vice.dLAlt : Vice.State :=
  { Vice.initState with keyStateChange := true, lAlt := true }

/-- Concrete changed VICE state with the one-shot right-Alt armed. -/
def Vice.dRAlt : Vice.State :=
  { Vice.initState with keyStateChange := true, rAlt := true }

/-- Concrete VICE state with the alt-lock latch active. -/
def Vice.sLocked : Vice.State := { Vice.initState with altLockActive := true }

/-- Witness for `C6_alt_combos` at concrete states: the latch trigger, the
one-shot pulse, both compose steps, and the heartbeat. -/
theorem C6_alt_combos_witness :
    (Vice.sLHeld.lShift = true ∧ Vice.sLHeld.rShift = false ∧
     Vice.debounce 69 Vice.sLHeld.debounceKeys =
       some (false, [(69, 0), (0, 0), (0, 0), (0, 0), (0, 0), (0, 0)]) ∧
     Vice.parseSpecial 69 false Vice.sLHeld =
       some (true, { Vice.sLHeld with
         debounceKeys := [(69, 0), (0, 0), (0, 0), (0, 0), (0, 0), (0, 0)]
         rShift := true
         keyStateChange := true
         lAlt := true })) ∧
    (Vice.parseSpecial 64 false Vice.sRHeld =
       some (true, { Vice.sRHeld with
         debounceKeys := [(64, 0), (0, 0), (0, 0), (0, 0), (0, 0), (0, 0)]
         lShift := true
         keyStateChange := true
         rAlt := true })) ∧
    ((Vice.composeSend Vice.dLAlt).2.1 =
       [Report.mk (Vice.deferredMods Vice.dLAlt ^^^ MODIFIERKEY_LEFT_ALT)
         Vice.dLAlt.kbKeys] ∧
     (Vice.composeSend Vice.dLAlt).1.altLockActive = !Vice.dLAlt.altLockActive) ∧
    ((Vice.composeSend Vice.dRAlt).2.2 = [Tone.mk 400 50] ∧
     (Vice.composeSend Vice.dRAlt).1.rAlt = false) ∧
    Vice.heartbeat 1250 Vice.sLocked =
      ({ Vice.sLocked with previousMillis := 1250 }, [Tone.mk 220 32]) :=
  ⟨⟨rfl, rfl, rfl,
    C6_alt_combos.1 Vice.sLHeld [(69, 0), (0, 0), (0, 0), (0, 0), (0, 0), (0, 0)]
      rfl rfl rfl⟩,
   C6_alt_combos.2.1 Vice.sRHeld [(64, 0), (0, 0), (0, 0), (0, 0), (0, 0), (0, 0)]
     rfl rfl rfl,
   ⟨(C6_alt_combos.2.2.1 Vice.dLAlt rfl rfl rfl).1,
    (C6_alt_combos.2.2.1 Vice.dLAlt rfl rfl rfl).2.2.2⟩,
   ⟨(C6_alt_combos.2.2.2.1 Vice.dRAlt rfl rfl rfl).2.1,
    (C6_alt_combos.2.2.2.1 Vice.dRAlt rfl rfl rfl).2.2.1⟩,
   C6_alt_combos.2.2.2.2 Vice.sLocked 1250 rfl (by decide)⟩

theorem Pet.setKey_flags (k c : Nat) (s : Pet.State) (b : Bool) (s1 : Pet.State)
    (h : Pet.setKey k c s = some (b, s1)) :
    s1.rArrow = s.rArrow ∧ s1.lArrow = s.lArrow ∧
    s1.lShift = s.lShift ∧ s1.rShift = s.rShift := by
  unfold Pet.setKey at h
  split at h
  · simp only [Option.some.injEq, Prod.mk.injEq] at h
    obtain ⟨-, rfl⟩ := h
    exact ⟨rfl, rfl, rfl, rfl⟩
  · split at h
    · exact absurd h (by simp)
    · simp only [Option.some.injEq, Prod.mk.injEq] at h
      obtain ⟨-, rfl⟩ := h
      exact ⟨rfl, rfl, rfl, rfl⟩
    · split at h
      · simp only [Option.some.injEq, Prod.mk.injEq] at h
        obtain ⟨-, rfl⟩ := h
        exact ⟨rfl, rfl, rfl, rfl⟩
      · split at h
        · simp only [Option.some.injEq, Prod.mk.injEq] at h
          obtain ⟨-, rfl⟩ := h
          exact ⟨rfl, rfl, rfl, rfl⟩
        · split at h
          · simp only [Option.some.injEq, Prod.mk.injEq] at h
            obtain ⟨-, rfl⟩ := h
            exact ⟨rfl, rfl, rfl, rfl⟩
          · exact absurd h (by simp)

theorem Pet.checkRelease_flags (k : Nat) (s s1 : Pet.State)
    (h : Pet.checkRelease k s = some s1) :
    s1.rArrow = s.rArrow ∧ s1.lArrow = s.lArrow ∧
    s1.lShift = s.lShift ∧ s1.rShift = s.rShift := by
  unfold Pet.checkRelease at h
  split at h
  · exact absurd h (by simp)
  · simp only [Option.some.injEq] at h
    subst h
    exact ⟨rfl, rfl, rfl, rfl⟩
  · split at h
    · simp only [Option.some.injEq] at h
      subst h
      exact ⟨rfl, rfl, rfl, rfl⟩
    · split at h
      · exact absurd h (by simp)
      · simp only [Option.some.injEq] at h
        subst h
        exact ⟨rfl, rfl, rfl, rfl⟩

theorem Pet.parseSpecial_arrows (k : Nat) (lvl : Bool) (s : Pet.State) (b : Bool)
    (s1 : Pet.State) (h : Pet.parseSpecial k lvl s = some (b, s1)) :
    ((k == 7) = false → s1.rArrow = s.rArrow) ∧
    ((k == 14) = false → s1.lArrow = s.lArrow) := by
  unfold Pet.parseSpecial at h
  split at h
  all_goals try split at h
  all_goals try split at h
  all_goals try split at h
  all_goals try split at h
  all_goals try split at h
  all_goals try split at h
  all_goals
    first
      | exact Option.noConfusion h
      | (simp only [Option.some.injEq, Prod.mk.injEq] at h
         obtain ⟨-, rfl⟩ := h
         exact ⟨fun _ => rfl, fun _ => rfl⟩)
      | (rw [Option.map_eq_some'] at h
         obtain ⟨p, hp, hps⟩ := h
         simp only [Prod.mk.injEq] at hps
         obtain ⟨-, rfl⟩ := hps
         constructor
         · intro hk
           first
             | exact absurd (by assumption : (k == 7) = true) (by simp [hk])
             | exact (Pet.setKey_flags _ _ _ _ _ hp).1
             | exact (Pet.checkRelease_flags _ _ _ hp).1
         · intro hk
           first
             | exact absurd (by assumption : (k == 14) = true) (by simp [hk])
             | exact (Pet.setKey_flags _ _ _ _ _ hp).2.1
             | exact (Pet.checkRelease_flags _ _ _ hp).2.1)

theorem Pet.detectStep_arrows (s : Pet.State) (ob : Nat × Bool) (s1 : Pet.State)
    (h : Pet.detectStep s ob = some s1) :
    ((ob.1 == 7) = false → s1.rArrow = s.rArrow) ∧
    ((ob.1 == 14) = false → s1.lArrow = s.lArrow) := by
  unfold Pet.detectStep at h
  split at h
  · exact Option.noConfusion h
  case h_2 p s2 heq =>
    simp only [Option.some.injEq] at h
    subst h
    exact Pet.parseSpecial_arrows _ _ _ _ _ heq
  case h_3 p s2 heq =>
    have hpar := Pet.parseSpecial_arrows _ _ _ _ _ heq
    split at h
    · rw [Option.map_eq_some'] at h
      obtain ⟨q, hq, rfl⟩ := h
      have hsk := Pet.setKey_flags _ _ _ _ _ hq
      exact ⟨fun hk => by rw [hsk.1, hpar.1 hk], fun hk => by rw [hsk.2.1, hpar.2 hk]⟩
    · have hcr := Pet.checkRelease_flags _ _ _ h
      exact ⟨fun hk => by rw [hcr.1, hpar.1 hk], fun hk => by rw [hcr.2.1, hpar.2 hk]⟩

theorem Pet.detectKeys_rArrow (obs : List (Nat × Bool)) :
    ∀ (s d : Pet.State), Pet.detectKeys obs s = some d →
      (∀ ob ∈ obs, (ob.1 == 7) = false) → d.rArrow = s.rArrow := by
  induction obs with
  | nil =>
    intro s d h _
    simp only [Pet.detectKeys, Option.some.injEq] at h
    subst h
    rfl
  | cons ob rest ih =>
    intro s d h hall
    unfold Pet.detectKeys at h
    cases hstep : Pet.detectStep s ob with
    | none => rw [hstep] at h; exact Option.noConfusion h
    | some s1 =>
      simp only [hstep] at h
      have h1 := (Pet.detectStep_arrows s ob s1 hstep).1 (hall ob (by simp))
      have h2 := ih s1 d h (fun o ho => hall o (by simp [ho]))
      rw [h2, h1]

theorem Pet.detectKeys_lArrow (obs : List (Nat × Bool)) :
    ∀ (s d : Pet.State), Pet.detectKeys obs s = some d →
      (∀ ob ∈ obs, (ob.1 == 14) = false) → d.lArrow = s.lArrow := by
  induction obs with
  | nil =>
    intro s d h _
    simp only [Pet.detectKeys, Option.some.injEq] at h
    subst h
    rfl
  | cons ob rest ih =>
    intro s d h hall
    unfold Pet.detectKeys at h
    cases hstep : Pet.detectStep s ob with
    | none => rw [hstep] at h; exact Option.noConfusion h
    | some s1 =>
      simp only [hstep] at h
      have h1 := (Pet.detectStep_arrows s ob s1 hstep).2 (hall ob (by simp))
      have h2 := ih s1 d h (fun o ho => hall o (by simp [ho]))
      rw [h2, h1]

theorem Pet.detectStep_press7 (s s1 : Pet.State)
    (h : Pet.detectStep s (7, false) = some s1) : s1.rArrow = true := by
  have hshape : Pet.parseSpecial 7 false s =
      (if s.lShift || s.rShift then Pet.setKey 7 KEY_LEFT s
       else Pet.setKey 7 KEY_RIGHT s).map
        (fun p => (true, { p.2 with rArrow := true })) := rfl
  unfold Pet.detectStep at h
  split at h
  · exact Option.noConfusion h
  case h_2 p s2 heq =>
    simp only [Option.some.injEq] at h
    subst h
    rw [hshape, Option.map_eq_some'] at heq
    obtain ⟨q, hq, hqe⟩ := heq
    simp only [Prod.mk.injEq] at hqe
    rw [← hqe.2]
  case h_3 p s2 heq =>
    rw [hshape, Option.map_eq_some'] at heq
    obtain ⟨q, hq, hqe⟩ := heq
    simp only [Prod.mk.injEq] at hqe
    exact absurd hqe.1 (by simp)

theorem Pet.detectStep_press14 (s s1 : Pet.State)
    (h : Pet.detectStep s (14, false) = some s1) : s1.lArrow = true := by
  have hshape : Pet.parseSpecial 14 false s =
      (if s.lShift || s.rShift then Pet.setKey 14 KEY_UP s
       else Pet.setKey 14 KEY_DOWN s).map
        (fun p => (true, { p.2 with lArrow := true })) := rfl
  unfold Pet.detectStep at h
  split at h
  · exact Option.noConfusion h
  case h_2 p s2 heq =>
    simp only [Option.some.injEq] at h
    subst h
    rw [hshape, Option.map_eq_some'] at heq
    obtain ⟨q, hq, hqe⟩ := heq
    simp only [Prod.mk.injEq] at hqe
    rw [← hqe.2]
  case h_3 p s2 heq =>
    rw [hshape, Option.map_eq_some'] at heq
    obtain ⟨q, hq, hqe⟩ := heq
    simp only [Prod.mk.injEq] at hqe
    exact absurd hqe.1 (by simp)

theorem Pet.detectKeys_mem7 (obs : List (Nat × Bool)) :
    ∀ (s d : Pet.State), Pet.detectKeys obs s = some d →
      (obs.map Prod.fst).Nodup → (7, false) ∈ obs → d.rArrow = true := by
  induction obs with
  | nil => intro s d _ _ hmem; cases hmem
  | cons ob rest ih =>
    intro s d h hnd hmem
    unfold Pet.detectKeys at h
    cases hstep : Pet.detectStep s ob with
    | none => rw [hstep] at h; exact Option.noConfusion h
    | some s1 =>
      simp only [hstep] at h
      have hnd0 : (ob.1 :: rest.map Prod.fst).Nodup := by
        rw [List.map_cons] at hnd; exact hnd
      have hnd' := List.nodup_cons.mp hnd0
      rcases List.mem_cons.mp hmem with hob | hrest
      · subst hob
        have h7 : ∀ o ∈ rest, (o.1 == 7) = false := by
          intro o ho
          simp only [beq_eq_false_iff_ne, ne_eq]
          intro hcon
          exact hnd'.1 (by simpa [← hcon] using List.mem_map_of_mem Prod.fst ho)
        rw [Pet.detectKeys_rArrow rest s1 d h h7]
        exact Pet.detectStep_press7 s s1 hstep
      · exact ih s1 d h hnd'.2 hrest

theorem Pet.detectKeys_mem14 (obs : List (Nat × Bool)) :
    ∀ (s d : Pet.State), Pet.detectKeys obs s = some d →
      (obs.map Prod.fst).Nodup → (14, false) ∈ obs → d.lArrow = true := by
  induction obs with
  | nil => intro s d _ _ hmem; cases hmem
  | cons ob rest ih =>
    intro s d h hnd hmem
    unfold Pet.detectKeys at h
    cases hstep : Pet.detectStep s ob with
    | none => rw [hstep] at h; exact Option.noConfusion h
    | some s1 =>
      simp only [hstep] at h
      have hnd0 : (ob.1 :: rest.map Prod.fst).Nodup := by
        rw [List.map_cons] at hnd; exact hnd
      have hnd' := List.nodup_cons.mp hnd0
      rcases List.mem_cons.mp hmem with hob | hrest
      · subst hob
        have h14 : ∀ o ∈ rest, (o.1 == 14) = false := by
          intro o ho
          simp only [beq_eq_false_iff_ne, ne_eq]
          intro hcon
          exact hnd'.1 (by simpa [← hcon] using List.mem_map_of_mem Prod.fst ho)
        rw [Pet.detectKeys_lArrow rest s1 d h h14]
        exact Pet.detectStep_press14 s s1 hstep
      · exact ih s1 d h hnd'.2 hrest

/-- Concrete PET state with Left Shift latched, the cursor key's debounce
entry still counting down (cycle suppressed) and key 16's entry about to
admit. -/
def Pet.sShiftCursor : Pet.State :=
  { Pet.initState with
    lShift := true
    debounceKeys := [(7, 2), (16, 1), (0, 0), (0, 0), (0, 0), (0, 0)] }

/-- Claim C7 counterexample: a scan cycle in which the horizontal cursor key
(keyId 7) is pressed while Left Shift is held, and which composes a report
(key 16 admits and sets `keyStateChange`), yet that report contains neither
KEY_LEFT nor KEY_UP — the cursor press was still being suppressed by the
debounce gate, so no reversed-direction code was installed. -/
theorem C7_counterexample :
    Pet.sShiftCursor.lShift = true ∧
    (Pet.loopObs [(7, false), (16, false)] Pet.sShiftCursor).map
      (fun p => p.2.map (fun r => (r.keys.contains KEY_LEFT, r.keys.contains KEY_UP))) =
      some [(false, false)] ∧
    (Pet.loopObs [(7, false), (16, false)] Pet.sShiftCursor).map
      (fun p => p.2.length) = some 1 :=
  ⟨rfl, rfl, rfl⟩

/-- Claim C7 (amended): a cursor key pressed while a Shift latch is held
passes the reversed-direction override code (KEY_LEFT / KEY_UP) to `setKey` —
so the reversed code is installed in the report exactly when that gated
`setKey` call admits and allocates — and in any sweep (each key scanned at
most once) containing such a cursor press the composition-time deferred-Shift
rule is disabled: the cursor side flag is still set at the end of the cycle,
so `deferredShift` is false and no literal Shift is ORed into that report by
the physically-held-Shift rule. -/
theorem C7_cursor_reversal :
    (∀ s : Pet.State, (s.lShift || s.rShift) = true →
      Pet.parseSpecial 7 false s =
        (Pet.setKey 7 KEY_LEFT s).map (fun p => (true, { p.2 with rArrow := true }))) ∧
    (∀ s : Pet.State, (s.lShift || s.rShift) = true →
      Pet.parseSpecial 14 false s =
        (Pet.setKey 14 KEY_UP s).map (fun p => (true, { p.2 with lArrow := true }))) ∧
    (∀ (obs : List (Nat × Bool)) (s d : Pet.State),
      (obs.map Prod.fst).Nodup →
      ((7, false) ∈ obs ∨ (14, false) ∈ obs) →
      Pet.detectKeys obs s = some d →
      Pet.deferredShift d = false) := by
  refine ⟨?_, ?_, ?_⟩
  · intro s hs
    simp [Pet.parseSpecial, hs]
  · intro s hs
    simp [Pet.parseSpecial, hs]
  · intro obs s d hnd hmem hdet
    have harr : d.rArrow = true ∨ d.lArrow = true := by
      rcases hmem with hm | hm
      · exact Or.inl (Pet.detectKeys_mem7 obs s d hdet hnd hm)
      · exact Or.inr (Pet.detectKeys_mem14 obs s d hdet hnd hm)
    unfold Pet.deferredShift
    rcases harr with h | h <;> simp [h]

/-- Concrete shift-held PET state for the C7 witness. -/
def Pet.sShifted : Pet.State := { Pet.initState with lShift := true }

/-- Witness for `C7_cursor_reversal` at concrete inputs: both cursor
overrides, and a one-element sweep pressing keyId 7 that ends with the
deferred-Shift rule disabled. -/
theorem C7_cursor_reversal_witness :
    ((Pet.sShifted.lShift || Pet.sShifted.rShift) = true ∧
     Pet.parseSpecial 7 false Pet.sShifted =
       (Pet.setKey 7 KEY_LEFT Pet.sShifted).map
         (fun p => (true, { p.2 with rArrow := true })) ∧
     Pet.parseSpecial 14 false Pet.sShifted =
       (Pet.setKey 14 KEY_UP Pet.sShifted).map
         (fun p => (true, { p.2 with lArrow := true }))) ∧
    (([(7, false)].map (Prod.fst (α := Nat) (β := Bool))).Nodup ∧
     Pet.detectKeys [(7, false)] Pet.sShifted =
       some { Pet.sShifted with
         debounceKeys := [(7, 2), (0, 0), (0, 0), (0, 0), (0, 0), (0, 0)]
         rArrow := true } ∧
     Pet.deferredShift
       { Pet.sShifted with
         debounceKeys := [(7, 2), (0, 0), (0, 0), (0, 0), (0, 0), (0, 0)]
         rArrow := true } = false) :=
  ⟨⟨rfl, C7_cursor_reversal.1 Pet.sShifted rfl, C7_cursor_reversal.2.1 Pet.sShifted rfl⟩,
   by decide, rfl,
   C7_cursor_reversal.2.2 [(7, false)] Pet.sShifted
     { Pet.sShifted with
       debounceKeys := [(7, 2), (0, 0), (0, 0), (0, 0), (0, 0), (0, 0)]
       rArrow := true }
     (by decide) (Or.inl (by decide)) rfl⟩

theorem toInt8_small (k : Nat) (h : k < 128) : toInt8 k = (k : Int) := by
  unfold toInt8 wrap8
  omega

theorem countOcc_le (l : List Int) : countOcc l ≤ l.length :=
  List.countP_le_length _

theorem Pet.allocScan_spec (x : Int) (hx : x ≠ -1) :
    ∀ (l : List Int) (i : Nat) (l' : List Int), Pet.allocScan x l = some (i, l') →
      l'.length = l.length ∧ countOcc l' = countOcc l + 1 := by
  intro l
  induction l with
  | nil => intro i l' h; cases h
  | cons v rest ih =>
    intro i l' h
    unfold Pet.allocScan at h
    split at h
    · have hv : v = -1 := by simp_all
      simp only [Option.some.injEq, Prod.mk.injEq] at h
      obtain ⟨-, rfl⟩ := h
      refine ⟨by simp, ?_⟩
      simp only [countOcc, List.countP_cons, hv]
      have hx' : (x != -1) = true := by simp [hx]
      simp [hx']
    · rw [Option.map_eq_some'] at h
      obtain ⟨⟨j, l2⟩, hj, hpair⟩ := h
      simp only [Prod.mk.injEq] at hpair
      obtain ⟨-, rfl⟩ := hpair
      obtain ⟨hlen, hcnt⟩ := ih j l2 hj
      refine ⟨by simp [hlen], ?_⟩
      simp only [countOcc, List.countP_cons] at hcnt ⊢
      omega

theorem Pet.releaseScan_spec (k : Int) (hk : k ≠ -1) :
    ∀ (l : List Int) (i : Nat) (l' : List Int), Pet.releaseScan k l = some (i, l') →
      l'.length = l.length ∧ countOcc l = countOcc l' + 1 := by
  intro l
  induction l with
  | nil => intro i l' h; cases h
  | cons v rest ih =>
    intro i l' h
    unfold Pet.releaseScan at h
    split at h
    · have hv : v = k := by simp_all
      simp only [Option.some.injEq, Prod.mk.injEq] at h
      obtain ⟨-, rfl⟩ := h
      refine ⟨by simp, ?_⟩
      simp only [countOcc, List.countP_cons, hv]
      have hk' : (k != -1) = true := by simp [hk]
      simp [hk']
    · rw [Option.map_eq_some'] at h
      obtain ⟨⟨j, l2⟩, hj, hpair⟩ := h
      simp only [Prod.mk.injEq] at hpair
      obtain ⟨-, rfl⟩ := hpair
      obtain ⟨hlen, hcnt⟩ := ih j l2 hj
      refine ⟨by simp [hlen], ?_⟩
      simp only [countOcc, List.countP_cons] at hcnt ⊢
      omega

/-- The implicit bookkeeping invariant of claim C10: `keysUsed` equals the
number of occupied `usbKeys` slots (and the array keeps its 6 cells). -/
def Pet.SlotInv (s : Pet.State) : Prop :=
  s.usbKeys.length = 6 ∧ s.keysUsed = countOcc s.usbKeys

instance (s : Pet.State) : Decidable (Pet.SlotInv s) := by
  unfold Pet.SlotInv; infer_instance

theorem Pet.setKey_SlotInv (k c : Nat) (hk : k < 80) (s : Pet.State)
    (hs : Pet.SlotInv s) (b : Bool) (s1 : Pet.State)
    (h : Pet.setKey k c s = some (b, s1)) : Pet.SlotInv s1 := by
  obtain ⟨hlen, hcnt⟩ := hs
  unfold Pet.setKey at h
  split at h
  · simp only [Option.some.injEq, Prod.mk.injEq] at h
    obtain ⟨-, rfl⟩ := h
    exact ⟨hlen, hcnt⟩
  · split at h
    · exact Option.noConfusion h
    · simp only [Option.some.injEq, Prod.mk.injEq] at h
      obtain ⟨-, rfl⟩ := h
      exact ⟨hlen, hcnt⟩
    · split at h
      · simp only [Option.some.injEq, Prod.mk.injEq] at h
        obtain ⟨-, rfl⟩ := h
        exact ⟨hlen, hcnt⟩
      · split at h
        · simp only [Option.some.injEq, Prod.mk.injEq] at h
          obtain ⟨-, rfl⟩ := h
          exact ⟨hlen, hcnt⟩
        case h_2 keyNum slots heq =>
          split at h
          · simp only [Option.some.injEq, Prod.mk.injEq] at h
            obtain ⟨-, rfl⟩ := h
            have hx : toInt8 k ≠ -1 := by
              rw [toInt8_small k (by omega)]
              omega
            obtain ⟨hl2, hc2⟩ := Pet.allocScan_spec _ hx _ _ _ heq
            have hle : countOcc s.usbKeys ≤ 6 := hlen ▸ countOcc_le s.usbKeys
            refine ⟨by simp [hl2, hlen], ?_⟩
            simp only [hc2, ← hcnt]
            omega
          · exact Option.noConfusion h

theorem Pet.checkRelease_SlotInv (k : Nat) (hk : k < 80) (s : Pet.State)
    (hs : Pet.SlotInv s) (s1 : Pet.State)
    (h : Pet.checkRelease k s = some s1) : Pet.SlotInv s1 := by
  obtain ⟨hlen, hcnt⟩ := hs
  unfold Pet.checkRelease at h
  split at h
  · exact Option.noConfusion h
  · simp only [Option.some.injEq] at h
    subst h
    exact ⟨hlen, hcnt⟩
  · split at h
    · simp only [Option.some.injEq] at h
      subst h
      exact ⟨hlen, hcnt⟩
    case h_2 keyNum slots heq =>
      split at h
      · exact Option.noConfusion h
      · simp only [Option.some.injEq] at h
        subst h
        have hx : ((k : Nat) : Int) ≠ -1 := by omega
        obtain ⟨hl2, hc2⟩ := Pet.releaseScan_spec _ hx _ _ _ heq
        have hle : countOcc s.usbKeys ≤ 6 := hlen ▸ countOcc_le s.usbKeys
        refine ⟨by simp [hl2, hlen], ?_⟩
        simp only [← hcnt] at hc2 ⊢
        omega

/-- One external operation on the PET key bookkeeping: a `setKey` or a
`checkRelease` call. -/
inductive Pet.Op where
  | set (keyId keyCode : Nat) : Pet.Op
  | rel (keyId : Nat) : Pet.Op
deriving DecidableEq, Repr

/-- KeyId carried by an operation. -/
def Pet.Op.keyId : Pet.Op → Nat
  | .set k _ => k
  | .rel k => k

/-- Apply one operation to the state. -/
def Pet.runOp (op : Pet.Op) (s : Pet.State) : Option Pet.State :=
  match op with
  | .set k c => (Pet.setKey k c s).map (fun p => p.2)
  | .rel k => Pet.checkRelease k s

/-- Apply a list of operations in order (undefined as soon as one call is). -/
def Pet.runOps : List Pet.Op → Pet.State → Option Pet.State
  | [], s => some s
  | op :: ops, s =>
    match Pet.runOp op s with
    | none => none
    | some s1 => Pet.runOps ops s1

/-- Claim C10 (confirmed): starting from the initial state, every interleaving
of `setKey` and `checkRelease` calls with valid KeyIds (the spec's KeyId range
is [0, 80)) keeps `keysUsed` equal to the number of `usbKeys` slots whose
value is not -1; consequently the counter stays at most 6, is decremented
only when positive and incremented only when below 6. -/
theorem C10_slot_invariant :
    ∀ (ops : List Pet.Op) (s' : Pet.State),
      (∀ op ∈ ops, op.keyId < 80) →
      Pet.runOps ops Pet.initState = some s' →
      s'.keysUsed = countOcc s'.usbKeys ∧ s'.keysUsed ≤ 6 := by
  have main : ∀ (ops : List Pet.Op) (s s' : Pet.State), Pet.SlotInv s →
      (∀ op ∈ ops, op.keyId < 80) → Pet.runOps ops s = some s' → Pet.SlotInv s' := by
    intro ops
    induction ops with
    | nil =>
      intro s s' hs _ h
      simp only [Pet.runOps, Option.some.injEq] at h
      subst h
      exact hs
    | cons op rest ih =>
      intro s s' hs hall h
      unfold Pet.runOps at h
      cases hop : Pet.runOp op s with
      | none => rw [hop] at h; exact Option.noConfusion h
      | some s1 =>
        simp only [hop] at h
        have hk : op.keyId < 80 := hall op (List.mem_cons_self op rest)
        have hs1 : Pet.SlotInv s1 := by
          cases op with
          | set k c =>
            unfold Pet.runOp at hop
            rw [Option.map_eq_some'] at hop
            obtain ⟨p, hp, rfl⟩ := hop
            exact Pet.setKey_SlotInv k c hk s hs p.1 p.2 hp
          | rel k =>
            exact Pet.checkRelease_SlotInv k hk s hs s1 hop
        exact ih s1 s' hs1 (fun o ho => hall o (by simp [ho])) h
  intro ops s' hall h
  have hinv := main ops Pet.initState s' (by decide) hall h
  refine ⟨hinv.2, ?_⟩
  calc s'.keysUsed = countOcc s'.usbKeys := hinv.2
  _ ≤ s'.usbKeys.length := countOcc_le s'.usbKeys
  _ = 6 := hinv.1

/-- Witness for `C10_slot_invariant` on a concrete press/release interleaving
for keyId 16 (both calls are debounce-suppressed, leaving the count at 0). -/
theorem C10_slot_invariant_witness :
    (∀ op ∈ [Pet.Op.set 16 0, Pet.Op.rel 16], op.keyId < 80) ∧
    Pet.runOps [Pet.Op.set 16 0, Pet.Op.rel 16] Pet.initState =
      some { Pet.initState with
        debounceKeys := [(16, 1), (0, 0), (0, 0), (0, 0), (0, 0), (0, 0)] } ∧
    ({ Pet.initState with
        debounceKeys := [(16, 1), (0, 0), (0, 0), (0, 0), (0, 0), (0, 0)] } :
      Pet.State).keysUsed =
      countOcc ({ Pet.initState with
        debounceKeys := [(16, 1), (0, 0), (0, 0), (0, 0), (0, 0), (0, 0)] } :
          Pet.State).usbKeys :=
  ⟨by decide, rfl,
   (C10_slot_invariant [Pet.Op.set 16 0, Pet.Op.rel 16] _ (by decide) rfl).1⟩
